import Mathlib

/-!
Verification of the Inventory & Assignment Consistency Engine of the
EquipmentManagement repository (src/db.py, src/ui.py), as a shallow
embedding: SQLite tables become typed record lists, each Python function
over the database becomes a pure state transformer on `DB`.

Modelling conventions (documented per definition below):
* a nullable SQL column becomes `Option _`; `NULL` is `none`.
* a SQL `UPDATE ... WHERE c = ?` becomes `List.map` guarded by the match
  condition (it touches every matching row, in place).
* `cursor.fetchone()` on a `SELECT ... WHERE` becomes `List.find?`
  (first row in storage order).
* Python truthiness of an optional int / string is modelled by
  `natTruthy` / `strTruthy` (`None`, `0` and `""` are falsy).
* Python `str.strip()` / `str.upper()` / `int(...)` (equivalently
  SQLite's INTEGER-affinity conversion of a digit string) are modelled
  list-wise by `pyStrip` / `pyUpper` / `strToNat?`; `str(n)` for a
  natural number by `natToStr`.
* The `csv` module writes one row per record and parses it back to the
  identical list of fields (quoting makes `writerow`/`reader` exact
  inverses), so the snapshot file is modelled at row granularity as
  `List (List String)`; `csv.writer` renders `None` as `""`.
-/

namespace EquipMgmt

/-- Override: `x.overr y` is the value actually stored by a dynamic
`if v is not None: fields.append(col = v)` update — the new value if one
was provided, the old column value otherwise. -/
def overr : Option α → Option α → Option α
  | some v, _ => some v
  | none, old => old

/-- Python truthiness of a nullable integer column value
(`None` and `0` are falsy). -/
def natTruthy : Option Nat → Bool
  | none => false
  | some n => n != 0

/-- Python truthiness of a nullable text column value
(`None` and `""` are falsy). -/
def strTruthy : Option String → Bool
  | none => false
  | some s => s != ""

/-- Python `str.strip()` (whitespace from both ends). -/
def pyStrip (s : String) : String :=
  ⟨((s.data.dropWhile Char.isWhitespace).reverse.dropWhile Char.isWhitespace).reverse⟩

/-- Python `str.upper()` (ASCII case mapping suffices for the section tags). -/
def pyUpper (s : String) : String :=
  ⟨s.data.map Char.toUpper⟩

/-- Value of a decimal digit character. -/
def digitVal (c : Char) : Nat := c.toNat - 48

/-- Fold a digit list to the number it denotes (most significant first). -/
def digitsToNat (l : List Char) : Nat := l.foldl (fun n c => n * 10 + digitVal c) 0

/-- Conversion of a text field to an integer as performed by Python's
`int(...)` and by SQLite's INTEGER affinity on insertion: succeeds exactly
on (non-empty) strings of decimal digits.  All numbers handled by the
program (record ids, item numbers, hanger numbers) are non-negative. -/
def strToNat? (s : String) : Option Nat :=
  if s.data ≠ [] ∧ s.data.all Char.isDigit then some (digitsToNat s.data) else none

/-- The decimal digit character for `d < 10`. -/
def digitChar (d : Nat) : Char := Char.ofNat (48 + d)

/-- Fuelled decimal printer (structural recursion so that it computes by
kernel reduction; the fuel is always sufficient below). -/
def toDecDigitsF : Nat → Nat → List Char
  | 0, _ => []
  | fuel + 1, n =>
    if n < 10 then [digitChar n]
    else toDecDigitsF fuel (n / 10) ++ [digitChar (n % 10)]

/-- Decimal digit list of a natural number, most significant first. -/
def toDecDigits (n : Nat) : List Char := toDecDigitsF (n + 1) n

/-- Python `str(n)` for a natural number: its decimal representation. -/
def natToStr (n : Nat) : String := ⟨toDecDigits n⟩

/-- Row of the `shakos` table (db.py `create_shako_table`):
`id INTEGER PRIMARY KEY, shako_num INTEGER UNIQUE,
status TEXT CHECK(... ) DEFAULT 'Available', student_id TEXT NULL, notes TEXT`. -/
structure Shako where
  id : Nat
  shako_num : Option Nat
  status : Option String
  student_id : Option String
  notes : Option String
deriving Repr, DecidableEq

/-- Row of the `coats` table (db.py `create_coat_table`): as `shakos` plus
`hanger_num INTEGER`. -/
structure Coat where
  id : Nat
  coat_num : Option Nat
  hanger_num : Option Nat
  status : Option String
  student_id : Option String
  notes : Option String
deriving Repr, DecidableEq

/-- Row of the `pants` table (db.py `create_pants_table`). -/
structure Pants where
  id : Nat
  pants_num : Option Nat
  status : Option String
  student_id : Option String
  notes : Option String
deriving Repr, DecidableEq

/-- Row of the `garment_bags` table (db.py `create_garment_bag_table`):
`bag_num TEXT UNIQUE`. -/
structure GarmentBag where
  id : Nat
  bag_num : Option String
  status : Option String
  student_id : Option String
  notes : Option String
deriving Repr, DecidableEq

/-- Row of the `uniforms` table (db.py `create_uniform_table`), the
composite uniform assignment record. -/
structure UniformRec where
  id : Nat
  student_id : Option String
  shako_num : Option Nat
  hanger_num : Option Nat
  garment_bag : Option String
  coat_num : Option Nat
  pants_num : Option Nat
  status : Option String
  notes : Option String
deriving Repr, DecidableEq

/-- Row of the `instruments` table (db.py `create_instrument_table`). -/
structure Instrument where
  id : Nat
  student_id : Option String
  instrument_name : Option String
  instrument_serial : Option String
  instrument_case : Option String
  model : Option String
  condition : Option String
  status : Option String
  notes : Option String
deriving Repr, DecidableEq

/-- Row of the `students` table.  Columns as used by the snapshot codec
(ui.py `create_backup` / `use_backup`, twelve columns ending in
`glove_size, spat_size`; the stale `CREATE TABLE` text in db.py lists only
the first ten, the backup/restore and add/edit dialogs all use twelve). -/
structure Student where
  student_id : String
  first_name : Option String
  last_name : Option String
  phone : Option String
  email : Option String
  year_came_up : Option String
  status : Option String
  guardian_name : Option String
  guardian_phone : Option String
  section' : Option String
  glove_size : Option String
  spat_size : Option String
deriving Repr, DecidableEq

/-- The record store: one list per SQLite table, in storage order. -/
structure DB where
  students : List Student
  shakos : List Shako
  coats : List Coat
  pants : List Pants
  garment_bags : List GarmentBag
  uniforms : List UniformRec
  instruments : List Instrument
deriving Repr, DecidableEq

/-- The empty store (all tables cleared). -/
def emptyDB : DB := ⟨[], [], [], [], [], [], []⟩

/-- db.py `find_shako_by_number`: first `shakos` row with the given number
(`SELECT ... WHERE shako_num = ? / fetchone`). -/
def find_shako_by_number (db : DB) (n : Nat) : Option Shako :=
  db.shakos.find? (fun r => r.shako_num = some n)

/-- db.py `find_coat_by_number`. -/
def find_coat_by_number (db : DB) (n : Nat) : Option Coat :=
  db.coats.find? (fun r => r.coat_num = some n)

/-- db.py `find_pants_by_number`. -/
def find_pants_by_number (db : DB) (n : Nat) : Option Pants :=
  db.pants.find? (fun r => r.pants_num = some n)

/-- db.py `find_bag_by_number`. -/
def find_bag_by_number (db : DB) (b : String) : Option GarmentBag :=
  db.garment_bags.find? (fun r => r.bag_num = some b)

/-- db.py `is_shako_available`: the row exists and its status is exactly
`'Available'`. -/
def is_shako_available (db : DB) (n : Nat) : Bool :=
  match find_shako_by_number db n with
  | some r => r.status = some "Available"
  | none => false

/-- db.py `is_coat_available`. -/
def is_coat_available (db : DB) (n : Nat) : Bool :=
  match find_coat_by_number db n with
  | some r => r.status = some "Available"
  | none => false

/-- db.py `is_pants_available`. -/
def is_pants_available (db : DB) (n : Nat) : Bool :=
  match find_pants_by_number db n with
  | some r => r.status = some "Available"
  | none => false

/-- db.py `is_bag_available`. -/
def is_bag_available (db : DB) (b : String) : Bool :=
  match find_bag_by_number db b with
  | some r => r.status = some "Available"
  | none => false

/-- db.py `get_student_by_id`: the student row for an id, if any (the
LEFT JOINs of the query add equipment columns but a row is returned iff
the student exists; callers in scope only test existence). -/
def get_student_by_id (db : DB) (sid : String) : Option Student :=
  db.students.find? (fun s => s.student_id = sid)

/-- db.py `get_uniform_id_by_student`: id of the first `uniforms` row for
the student. -/
def get_uniform_id_by_student (db : DB) (sid : String) : Option Nat :=
  (db.uniforms.find? (fun u => u.student_id = some sid)).map (fun u => u.id)

/-- Modelled from the spec: `db.get_uniforms_by_student_id`, called by
ui.py `assign_uniform_popup.do_assign` ("<-- implement this helper"), is
not defined anywhere in the repository.  Per spec §3/§4.1 it looks up the
member's CompositeUniformAssignment — at most one active composite record
per member, found by member id — returning its component references, or
nothing when the member holds no uniform piece. -/
def get_uniforms_by_student_id (db : DB) (sid : String) : Option UniformRec :=
  db.uniforms.find? (fun u => u.student_id = some sid)

/-- db.py `update_shako`: `student_id` is always written (even when the
argument is `None`); `status` and `notes` are written only when provided.
The SQL `UPDATE` touches every row matching `shako_num`. -/
def update_shako (db : DB) (n : Nat) (student_id : Option String)
    (status notes : Option String) : DB :=
  { db with shakos := db.shakos.map (fun r =>
      if r.shako_num = some n then
        { r with student_id := student_id,
                 status := overr status r.status,
                 notes := overr notes r.notes }
      else r) }

/-- db.py `update_coat`: like `update_shako`, with `hanger_num` also
written only when provided. -/
def update_coat (db : DB) (n : Nat) (student_id : Option String)
    (status : Option String) (hanger_num : Option Nat) (notes : Option String) : DB :=
  { db with coats := db.coats.map (fun r =>
      if r.coat_num = some n then
        { r with student_id := student_id,
                 status := overr status r.status,
                 hanger_num := overr hanger_num r.hanger_num,
                 notes := overr notes r.notes }
      else r) }

/-- db.py `update_pants`. -/
def update_pants (db : DB) (n : Nat) (student_id : Option String)
    (status notes : Option String) : DB :=
  { db with pants := db.pants.map (fun r =>
      if r.pants_num = some n then
        { r with student_id := student_id,
                 status := overr status r.status,
                 notes := overr notes r.notes }
      else r) }

/-- db.py `update_bag`. -/
def update_bag (db : DB) (b : String) (student_id : Option String)
    (status notes : Option String) : DB :=
  { db with garment_bags := db.garment_bags.map (fun r =>
      if r.bag_num = some b then
        { r with student_id := student_id,
                 status := overr status r.status,
                 notes := overr notes r.notes }
      else r) }

/-- db.py `update_instrument_by_id`: `student_id` always written; status,
notes, case, name, model, condition written only when provided.  Matching
is by record id. -/
def update_instrument_by_id (db : DB) (inst_id : Nat) (student_id : Option String)
    (status notes case' name model condition : Option String) : DB :=
  { db with instruments := db.instruments.map (fun r =>
      if r.id = inst_id then
        { r with student_id := student_id,
                 status := overr status r.status,
                 notes := overr notes r.notes,
                 instrument_case := overr case' r.instrument_case,
                 instrument_name := overr name r.instrument_name,
                 model := overr model r.model,
                 condition := overr condition r.condition }
      else r) }

/-- The keyword arguments (`**pieces`) accepted by db.py
`assign_uniform_piece`; `none` means the key is absent (callers build the
dict conditionally and never pass an explicit `None` value). -/
structure Pieces where
  shako_num : Option Nat
  hanger_num : Option Nat
  garment_bag : Option String
  coat_num : Option Nat
  pants_num : Option Nat
deriving Repr, DecidableEq

/-- Id given by SQLite AUTOINCREMENT to a row inserted into `uniforms`:
one larger than the largest id present (AUTOINCREMENT never reuses ids;
for the states reachable here max+1 is exact). -/
def nextUniformId (db : DB) : Nat :=
  (db.uniforms.map (fun u => u.id)).foldr max 0 + 1

/-- Step 1 of `assign_uniform_piece`: `if not uniform_id:` (Python
truthiness) insert an empty `uniforms` row for the student with
status `'Available'`. -/
def upsert_uniform_row (db : DB) (sid : String) : DB :=
  if natTruthy (get_uniform_id_by_student db sid) then db
  else { db with uniforms := db.uniforms ++
    [⟨nextUniformId db, some sid, none, none, none, none, none, some "Available", none⟩] }

/-- Step 2 of `assign_uniform_piece`: the dynamic
`UPDATE uniforms SET ... WHERE id = ?` merging the provided pieces and
forcing `status='Assigned'`, `student_id`. -/
def merge_uniform_row (db : DB) (sid : String) (p : Pieces) : DB :=
  { db with uniforms := db.uniforms.map (fun u =>
      if some u.id = get_uniform_id_by_student db sid then
        { u with status := some "Assigned", student_id := some sid,
                 shako_num := overr p.shako_num u.shako_num,
                 hanger_num := overr p.hanger_num u.hanger_num,
                 garment_bag := overr p.garment_bag u.garment_bag,
                 coat_num := overr p.coat_num u.coat_num,
                 pants_num := overr p.pants_num u.pants_num }
      else u) }

/-- Inventory sync `if "shako_num" in pieces and pieces["shako_num"] is
not None: update_shako(..., status="Assigned")` (also the identical second
sync in ui.py `do_assign`). -/
def sync_shako (db : DB) (sid : String) : Option Nat → DB
  | some n => update_shako db n (some sid) (some "Assigned") none
  | none => db

/-- Inventory sync for a provided coat (carrying the hanger argument the
caller supplies). -/
def sync_coat (db : DB) (sid : String) (hang : Option Nat) : Option Nat → DB
  | some n => update_coat db n (some sid) (some "Assigned") hang none
  | none => db

/-- Inventory sync for provided pants. -/
def sync_pants (db : DB) (sid : String) : Option Nat → DB
  | some n => update_pants db n (some sid) (some "Assigned") none
  | none => db

/-- Inventory sync for a bag — guarded by Python truthiness
(`if ... and pieces["garment_bag"]:`). -/
def sync_bag (db : DB) (sid : String) : Option String → DB
  | some b => if b != "" then update_bag db b (some sid) (some "Assigned") none else db
  | none => db

/-- db.py `assign_uniform_piece`: find-or-create the student's `uniforms`
row, merge the provided pieces into it forcing `status='Assigned'`,
`student_id`, then sync each provided component's own table. -/
def assign_uniform_piece (db : DB) (sid : String) (p : Pieces) : DB :=
  let db2 := merge_uniform_row (upsert_uniform_row db sid) sid p
  sync_bag (sync_pants (sync_coat (sync_shako db2 sid p.shako_num) sid p.hanger_num p.coat_num)
      sid p.pants_num) sid p.garment_bag

/-- The `if shako_num: update_shako(shako_num,
student_id=None, status="Available")` (Python truthiness guard). -/
def release_shako (db : DB) (num? : Option Nat) : DB :=
  if natTruthy num? then update_shako db (num?.getD 0) none (some "Available") none else db

/-- Coat release of `return_uniform_piece`.  The call passes
`hanger_num=None`, which `update_coat` treats as "not provided" — the
stored hanger number is NOT cleared. -/
def release_coat (db : DB) (num? : Option Nat) : DB :=
  if natTruthy num? then update_coat db (num?.getD 0) none (some "Available") none none else db

/-- Pants release of `return_uniform_piece`. -/
def release_pants (db : DB) (num? : Option Nat) : DB :=
  if natTruthy num? then update_pants db (num?.getD 0) none (some "Available") none else db

/-- Bag release of `return_uniform_piece`. -/
def release_bag (db : DB) (bag? : Option String) : DB :=
  if strTruthy bag? then update_bag db (bag?.getD "") none (some "Available") none else db

/-- db.py `return_uniform_piece` (ReturnAll): fetch the student's
`uniforms` row (no row: silent no-op), delete it, then release each
truthy component reference to `Available` with no assignee. -/
def return_uniform_piece (db : DB) (sid : String) : DB :=
  match db.uniforms.find? (fun u => u.student_id = some sid) with
  | none => db
  | some u =>
    release_bag (release_pants (release_coat (release_shako
      { db with uniforms := db.uniforms.filter (fun v => v.id ≠ u.id) }
      u.shako_num) u.coat_num) u.pants_num) u.garment_bag

/-- db.py `delete_student`: missing student is a no-op; otherwise every
equipment and instrument row assigned to the student is released to
`Available` / no assignee, and the student row is then deleted.  The
cascade runs inside `try: ... except Exception: pass` ("best-effort:
ignore failures and continue to delete student"): `cascade_ok = false`
models a store failure on the first cascade step — the releases are lost
but the student row is deleted all the same. -/
def delete_student (db : DB) (sid : String) (cascade_ok : Bool) : DB :=
  if (get_student_by_id db sid).isNone then db
  else
    let db1 :=
      if cascade_ok then
        { db with
          uniforms := db.uniforms.map (fun u =>
            if u.student_id = some sid then
              { u with student_id := none, status := some "Available" } else u),
          instruments := db.instruments.map (fun r =>
            if r.student_id = some sid then
              { r with student_id := none, status := some "Available" } else r),
          shakos := db.shakos.map (fun r =>
            if r.student_id = some sid then
              { r with student_id := none, status := some "Available" } else r),
          coats := db.coats.map (fun r =>
            if r.student_id = some sid then
              { r with student_id := none, status := some "Available" } else r),
          pants := db.pants.map (fun r =>
            if r.student_id = some sid then
              { r with student_id := none, status := some "Available" } else r),
          garment_bags := db.garment_bags.map (fun r =>
            if r.student_id = some sid then
              { r with student_id := none, status := some "Available" } else r) }
      else db
    { db1 with students := db1.students.filter (fun s => s.student_id ≠ sid) }

/-- Membership test `new_value in options` for a nullable value (Python `in` on a set of
strings; `None` is never a member). -/
def optIn (v : Option String) (options : List String) : Bool :=
  match v with
  | some s => options.contains s
  | none => false

/-- The effect of `update_student`'s final
`UPDATE students SET {field} = ? WHERE student_id = ?` (dynamic column
name dispatched over the validated field names). -/
def set_student_field (db : DB) (sid field : String) (v : Option String) : DB :=
  let setF : Student → Student := fun s =>
    if field == "first_name" then { s with first_name := v }
    else if field == "last_name" then { s with last_name := v }
    else if field == "phone" then { s with phone := v }
    else if field == "email" then { s with email := v }
    else if field == "year_came_up" then { s with year_came_up := v }
    else if field == "status" then { s with status := v }
    else if field == "guardian_name" then { s with guardian_name := v }
    else if field == "guardian_phone" then { s with guardian_phone := v }
    else if field == "section" then { s with section' := v }
    else s
  { db with students := db.students.map (fun s =>
      if s.student_id = sid then setF s else s) }

/-- db.py `update_student`: single-field update with validation.  Fields
outside `valid_fields` (in particular `glove_size` / `spat_size`, which
ui.py passes) are rejected and the call is a state no-op. -/
def update_student (db : DB) (sid field : String) (new_value : Option String) : DB :=
  if !(["first_name", "last_name", "phone", "email", "year_came_up", "status",
        "guardian_name", "guardian_phone", "section"].contains field) then db
  else if field == "status" && !(optIn new_value ["Student", "Former", "Alumni"]) then db
  else if field == "section"
      && !(optIn new_value ["Trumpet", "Trombone", "Euphonium", "French Horn", "Tuba",
            "Flute", "Clarinet", "Saxophone", "Bassoon", "Oboe", "Percussion"]) then db
  else if (field == "phone" || field == "guardian_phone")
      && !(new_value == none || new_value == some "")
      && !(match new_value with
           | some s => s.data.all Char.isDigit && s.length == 10
           | none => false) then db
  else
    set_student_field db sid field
      (match new_value with
       | none => none
       | some s => if s == "" || s == "None" then none else some s)

/-- Outcome reported by ui.py `assign_uniform_popup.do_assign` (each
variant is one of its early-return message boxes, or success). -/
inductive AssignResult where
  | invalidId
  | noStudent
  | alreadyAssigned
  | missingParts
  | notAvailable
  | success
deriving Repr, DecidableEq

/-- ui.py: `sid.isdigit() and len(sid) == 9`. -/
def validSid (sid : String) : Bool :=
  sid.length == 9 && sid.data.all Char.isDigit

/-- The already-assigned check of `do_assign`: the member's composite record is
consulted with Python truthiness on both the requested and the held
reference (`if shako_num and current.get("shako_num")`, ...). -/
def already_assigned_check (db : DB) (sid : String)
    (shako_num coat_num pants_num : Option Nat) (bag_val : Option String) : Bool :=
  match get_uniforms_by_student_id db sid with
  | none => false
  | some u =>
    (natTruthy shako_num && natTruthy u.shako_num) ||
    (natTruthy coat_num && natTruthy u.coat_num) ||
    (natTruthy pants_num && natTruthy u.pants_num) ||
    (strTruthy bag_val && strTruthy u.garment_bag)

/-- The `missing` list of `do_assign` is non-empty: some requested part is not
in inventory (`is not None` guards for the numbered parts, truthiness for
the bag). -/
def missing_check (db : DB) (shako_num coat_num pants_num : Option Nat)
    (bag_val : Option String) : Bool :=
  (match shako_num with
   | some n => (find_shako_by_number db n).isNone
   | none => false) ||
  (match coat_num with
   | some n => (find_coat_by_number db n).isNone
   | none => false) ||
  (match pants_num with
   | some n => (find_pants_by_number db n).isNone
   | none => false) ||
  (match bag_val with
   | some b => if b != "" then (find_bag_by_number db b).isNone else false
   | none => false)

/-- The `not_available` list of `do_assign` is non-empty: some requested part
exists but is not `'Available'`. -/
def not_available_check (db : DB) (shako_num coat_num pants_num : Option Nat)
    (bag_val : Option String) : Bool :=
  (match shako_num with
   | some n => (find_shako_by_number db n).isSome && !(is_shako_available db n)
   | none => false) ||
  (match coat_num with
   | some n => (find_coat_by_number db n).isSome && !(is_coat_available db n)
   | none => false) ||
  (match pants_num with
   | some n => (find_pants_by_number db n).isSome && !(is_pants_available db n)
   | none => false) ||
  (match bag_val with
   | some b => if b != "" then (find_bag_by_number db b).isSome && !(is_bag_available db b)
               else false
   | none => false)

/-- The `hanger_num` local of `do_assign`: copied from the requested coat's row
only when that coat was found and available. -/
def hanger_from_coat (db : DB) (coat_num : Option Nat) : Option Nat :=
  match coat_num with
  | some n =>
    match find_coat_by_number db n with
    | some cr => if is_coat_available db n then cr.hanger_num else none
    | none => none
  | none => none

/-- The state change of `do_assign` on the success path: `assign_uniform_piece`
with the conditionally-built kwargs, then the identical second sync of
each component table, then the glove/spat `update_student` calls (state
no-ops: those fields are invalid in `update_student`). -/
def do_assign_apply (db : DB) (sid : String)
    (shako_num coat_num pants_num : Option Nat) (bag_val : Option String)
    (hanger_num : Option Nat) (glove_size spat_size : Option String) : DB :=
  let p : Pieces :=
    ⟨shako_num, hanger_num,
     (match bag_val with
      | some b => if b != "" then some b else none
      | none => none),
     coat_num, pants_num⟩
  let db1 := assign_uniform_piece db sid p
  let db5 := sync_bag (sync_pants (sync_coat (sync_shako db1 sid shako_num)
      sid hanger_num coat_num) sid pants_num) sid bag_val
  let db6 := match glove_size with
    | some g => update_student db5 sid "glove_size" (some g)
    | none => db5
  match spat_size with
  | some g => update_student db6 sid "spat_size" (some g)
  | none => db6

/-- ui.py `assign_uniform_popup.do_assign`.  Inputs arrive already
field-parsed as the Python locals `shako_num`/`coat_num`/`pants_num`
(blank text boxes are `None`, otherwise `int(text)`), `bag_val` (blank is
`None`) and the combo selections.  The body, in source order: id shape
check; student existence; already-assigned check against the member's
composite record; inventory existence / availability checks (the hanger
number is captured from an available coat); on success, the state change
of `do_assign_apply`. -/
def do_assign (db : DB) (sid : String) (shako_num coat_num pants_num : Option Nat)
    (bag_val : Option String) (glove_size spat_size : Option String) :
    AssignResult × DB :=
  if !(validSid sid) then (.invalidId, db)
  else if (get_student_by_id db sid).isNone then (.noStudent, db)
  else if already_assigned_check db sid shako_num coat_num pants_num bag_val then
    (.alreadyAssigned, db)
  else if missing_check db shako_num coat_num pants_num bag_val then
    (.missingParts, db)
  else if not_available_check db shako_num coat_num pants_num bag_val then
    (.notAvailable, db)
  else
    (.success, do_assign_apply db sid shako_num coat_num pants_num bag_val
      (hanger_from_coat db coat_num) glove_size spat_size)


/-- How `csv.writer` renders a nullable text column: `None` becomes the
empty field. -/
def fieldStr : Option String → String
  | none => ""
  | some s => s

/-- How `csv.writer` renders a nullable integer column: `None` becomes the
empty field, an integer its decimal text. -/
def fieldNat : Option Nat → String
  | none => ""
  | some n => natToStr n

/-- One `STUDENTS` line of ui.py `create_backup` (tag, then the twelve
selected columns in order). -/
def studentRow (s : Student) : List String :=
  ["STUDENTS", s.student_id, fieldStr s.first_name, fieldStr s.last_name,
   fieldStr s.phone, fieldStr s.email, fieldStr s.year_came_up, fieldStr s.status,
   fieldStr s.guardian_name, fieldStr s.guardian_phone, fieldStr s.section',
   fieldStr s.glove_size, fieldStr s.spat_size]

/-- One `UNIFORMS` line of `create_backup`. -/
def uniformRow (u : UniformRec) : List String :=
  ["UNIFORMS", natToStr u.id, fieldStr u.student_id, fieldNat u.shako_num,
   fieldNat u.hanger_num, fieldStr u.garment_bag, fieldNat u.coat_num,
   fieldNat u.pants_num, fieldStr u.status, fieldStr u.notes]

/-- One `SHAKOS` line of `create_backup`. -/
def shakoRow (r : Shako) : List String :=
  ["SHAKOS", natToStr r.id, fieldNat r.shako_num, fieldStr r.status,
   fieldStr r.student_id, fieldStr r.notes]

/-- One `COATS` line of `create_backup`. -/
def coatRow (r : Coat) : List String :=
  ["COATS", natToStr r.id, fieldNat r.coat_num, fieldNat r.hanger_num,
   fieldStr r.status, fieldStr r.student_id, fieldStr r.notes]

/-- One `PANTS` line of `create_backup`. -/
def pantsRow (r : Pants) : List String :=
  ["PANTS", natToStr r.id, fieldNat r.pants_num, fieldStr r.status,
   fieldStr r.student_id, fieldStr r.notes]

/-- One `BAGS` line of `create_backup`. -/
def bagRow (r : GarmentBag) : List String :=
  ["BAGS", natToStr r.id, fieldStr r.bag_num, fieldStr r.status,
   fieldStr r.student_id, fieldStr r.notes]

/-- One `INSTRUMENTS` line of `create_backup`. -/
def instrumentRow (r : Instrument) : List String :=
  ["INSTRUMENTS", natToStr r.id, fieldStr r.student_id, fieldStr r.instrument_name,
   fieldStr r.instrument_serial, fieldStr r.instrument_case, fieldStr r.model,
   fieldStr r.condition, fieldStr r.status, fieldStr r.notes]

/-- ui.py `create_backup` (Export): every table dumped in storage order,
section by section. -/
def create_backup (db : DB) : List (List String) :=
  db.students.map studentRow ++ db.uniforms.map uniformRow ++
  db.shakos.map shakoRow ++ db.coats.map coatRow ++ db.pants.map pantsRow ++
  db.garment_bags.map bagRow ++ db.instruments.map instrumentRow

/-- ui.py `use_backup` field preprocessing:
`p.strip() if p and p.strip() != '' else None`. -/
def parseField (p : String) : Option String :=
  let t := pyStrip p
  if t == "" then none else some t

/-- SQLite INTEGER-affinity conversion of a parsed field destined for an
INTEGER column: `none` stays NULL, a digit string becomes its number.
(The overall parse is `none` — line skipped — for non-integer text; an
INTEGER column holding genuine text is outside this typed model and no
claim involves one.) -/
def parseNatField : Option String → Option (Option Nat)
  | none => some none
  | some s => (strToNat? s).map some

/-- The resolved value of an `INTEGER PRIMARY KEY` field on insertion:
NULL draws a fresh id (AUTOINCREMENT, modelled as max+1 via the given
next-id), non-integer text is a datatype-mismatch error (`none`: the line
is skipped). -/
def parsePK (nextId : Nat) : Option String → Option Nat
  | none => some nextId
  | some s => strToNat? s

/-- The `CHECK(status IN ('Available','Assigned','Maintenance','Retired'))`
constraint carried by every equipment, uniform and instrument table
(NULL passes a CHECK). -/
def equipStatusOk (st : Option String) : Bool :=
  match st with
  | none => true
  | some s => ["Available", "Assigned", "Maintenance", "Retired"].contains s

/-- Constraint `CHECK(condition IN ('Excellent','Good','Fair','Poor'))` on
`instruments`. -/
def conditionOk (c : Option String) : Bool :=
  match c with
  | none => true
  | some s => ["Excellent", "Good", "Fair", "Poor"].contains s

/-- Constraint `CHECK(status IN ('Student','Former','Alumni'))` on `students`. -/
def studentStatusOk (st : Option String) : Bool :=
  match st with
  | none => true
  | some s => ["Student", "Former", "Alumni"].contains s

/-- The `students.section` CHECK constraint (twelve sections, including
`Flags`). -/
def sectionOk (sec : Option String) : Bool :=
  match sec with
  | none => true
  | some s => ["Trumpet", "Trombone", "Euphonium", "French Horn", "Tuba",
      "Flute", "Clarinet", "Saxophone", "Bassoon", "Oboe", "Percussion",
      "Flags"].contains s

/-- Next AUTOINCREMENT id for `shakos`. -/
def nextShakoId (db : DB) : Nat := (db.shakos.map (fun r => r.id)).foldr max 0 + 1

/-- Next AUTOINCREMENT id for `coats`. -/
def nextCoatId (db : DB) : Nat := (db.coats.map (fun r => r.id)).foldr max 0 + 1

/-- Next AUTOINCREMENT id for `pants`. -/
def nextPantsId (db : DB) : Nat := (db.pants.map (fun r => r.id)).foldr max 0 + 1

/-- Next AUTOINCREMENT id for `garment_bags`. -/
def nextBagId (db : DB) : Nat := (db.garment_bags.map (fun r => r.id)).foldr max 0 + 1

/-- Next AUTOINCREMENT id for `instruments`. -/
def nextInstrumentId (db : DB) : Nat := (db.instruments.map (fun r => r.id)).foldr max 0 + 1

/-- Restore of a `SHAKOS` line in `use_backup`: insert the first five parsed fields as-is
(`INSERT INTO shakos (id, shako_num, status, student_id, notes)`); a wrong
field count, bad id, status outside its CHECK or an id / `shako_num UNIQUE`
conflict raises and the line is skipped (`except ... print`). -/
def restoreShako (db : DB) (parts : List (Option String)) : DB :=
  match parts with
  | p0 :: p1 :: p2 :: p3 :: p4 :: _ =>
    match parsePK (nextShakoId db) p0, parseNatField p1 with
    | some idv, some num? =>
      if equipStatusOk p2
          && !(db.shakos.any (fun r => r.id = idv || (num?.isSome && r.shako_num = num?))) then
        { db with shakos := db.shakos ++ [⟨idv, num?, p2, p3, p4⟩] }
      else db
    | _, _ => db
  | _ => db

/-- Restore of a `COATS` line
(`INSERT INTO coats (id, coat_num, hanger_num, status, student_id, notes)`). -/
def restoreCoat (db : DB) (parts : List (Option String)) : DB :=
  match parts with
  | p0 :: p1 :: p2 :: p3 :: p4 :: p5 :: _ =>
    match parsePK (nextCoatId db) p0, parseNatField p1, parseNatField p2 with
    | some idv, some num?, some hang? =>
      if equipStatusOk p3
          && !(db.coats.any (fun r => r.id = idv || (num?.isSome && r.coat_num = num?))) then
        { db with coats := db.coats ++ [⟨idv, num?, hang?, p3, p4, p5⟩] }
      else db
    | _, _, _ => db
  | _ => db

/-- Restore of a `PANTS` line in `use_backup`. -/
def restorePants (db : DB) (parts : List (Option String)) : DB :=
  match parts with
  | p0 :: p1 :: p2 :: p3 :: p4 :: _ =>
    match parsePK (nextPantsId db) p0, parseNatField p1 with
    | some idv, some num? =>
      if equipStatusOk p2
          && !(db.pants.any (fun r => r.id = idv || (num?.isSome && r.pants_num = num?))) then
        { db with pants := db.pants ++ [⟨idv, num?, p2, p3, p4⟩] }
      else db
    | _, _ => db
  | _ => db

/-- Restore of a `BAGS` line (`bag_num` is `TEXT UNIQUE`). -/
def restoreBag (db : DB) (parts : List (Option String)) : DB :=
  match parts with
  | p0 :: p1 :: p2 :: p3 :: p4 :: _ =>
    match parsePK (nextBagId db) p0 with
    | some idv =>
      if equipStatusOk p2
          && !(db.garment_bags.any (fun r => r.id = idv || (p1.isSome && r.bag_num = p1))) then
        { db with garment_bags := db.garment_bags ++ [⟨idv, p1, p2, p3, p4⟩] }
      else db
    | none => db
  | _ => db

/-- Restore of a `UNIFORMS` line (nine columns; only the id is
constrained unique). -/
def restoreUniform (db : DB) (parts : List (Option String)) : DB :=
  match parts with
  | p0 :: p1 :: p2 :: p3 :: p4 :: p5 :: p6 :: p7 :: p8 :: _ =>
    match parsePK (nextUniformId db) p0, parseNatField p2, parseNatField p3,
        parseNatField p5, parseNatField p6 with
    | some idv, some shako?, some hang?, some coat?, some pant? =>
      if equipStatusOk p7 && !(db.uniforms.any (fun r => r.id = idv)) then
        { db with uniforms :=
            db.uniforms ++ [⟨idv, p1, shako?, hang?, p4, coat?, pant?, p7, p8⟩] }
      else db
    | _, _, _, _, _ => db
  | _ => db

/-- Restore of an `INSTRUMENTS` line (nine columns; CHECKs on condition
and status; only the id is unique — serials may repeat). -/
def restoreInstrument (db : DB) (parts : List (Option String)) : DB :=
  match parts with
  | p0 :: p1 :: p2 :: p3 :: p4 :: p5 :: p6 :: p7 :: p8 :: _ =>
    match parsePK (nextInstrumentId db) p0 with
    | some idv =>
      if conditionOk p6 && equipStatusOk p7
          && !(db.instruments.any (fun r => r.id = idv)) then
        { db with instruments :=
            db.instruments ++ [⟨idv, p1, p2, p3, p4, p5, p6, p7, p8⟩] }
      else db
    | none => db
  | _ => db

/-- Restore of a `STUDENTS` line (twelve columns; TEXT primary key must
be unique; CHECKs on status and section.  A NULL member id — allowed by a
SQLite quirk on TEXT primary keys — is outside the typed model, whose
member key is total). -/
def restoreStudent (db : DB) (parts : List (Option String)) : DB :=
  match parts with
  | p0 :: p1 :: p2 :: p3 :: p4 :: p5 :: p6 :: p7 :: p8 :: p9 :: p10 :: p11 :: _ =>
    match p0 with
    | some sid =>
      if studentStatusOk p6 && sectionOk p9
          && !(db.students.any (fun s => s.student_id = sid)) then
        { db with students :=
            db.students ++ [⟨sid, p1, p2, p3, p4, p5, p6, p7, p8, p9, p10, p11⟩] }
      else db
    | none => db
  | _ => db

/-- One loop iteration of ui.py `use_backup`: skip empty rows, dispatch on
the upper-cased stripped section tag, strip every following field
(empty to NULL), insert; a failing insert only skips the line. -/
def restoreRow (db : DB) (row : List String) : DB :=
  match row with
  | [] => db
  | tag :: rest =>
    let sec := pyUpper (pyStrip tag)
    let parts := rest.map parseField
    if sec == "STUDENTS" then restoreStudent db parts
    else if sec == "UNIFORMS" then restoreUniform db parts
    else if sec == "INSTRUMENTS" then restoreInstrument db parts
    else if sec == "SHAKOS" then restoreShako db parts
    else if sec == "COATS" then restoreCoat db parts
    else if sec == "PANTS" then restorePants db parts
    else if sec == "BAGS" then restoreBag db parts
    else db

/-- ui.py `use_backup` (Import): destructive replace — every table is
cleared first, then the lines are applied in file order. -/
def use_backup (rows : List (List String)) : DB :=
  rows.foldl restoreRow emptyDB

/-- The spec §3 assignee/status invariant for one equipment or instrument
record: `assignee != null  ⇔  status == 'Assigned'`. -/
def itemInv (student_id status : Option String) : Prop :=
  student_id ≠ none ↔ status = some "Assigned"

instance (sid st : Option String) : Decidable (itemInv sid st) := by
  unfold itemInv
  infer_instance

/-- The assignee/status invariant over every equipment item record
(shakos, coats, pants, garment bags) and every instrument record of the
store (claim C1's scope; the composite `uniforms` record is not an item). -/
def dbInv (db : DB) : Prop :=
  (∀ r ∈ db.shakos, itemInv r.student_id r.status) ∧
  (∀ r ∈ db.coats, itemInv r.student_id r.status) ∧
  (∀ r ∈ db.pants, itemInv r.student_id r.status) ∧
  (∀ r ∈ db.garment_bags, itemInv r.student_id r.status) ∧
  (∀ r ∈ db.instruments, itemInv r.student_id r.status)

instance (db : DB) : Decidable (dbInv db) := by
  unfold dbInv
  infer_instance

/-- Fixture for C1: a store holding one available shako and nothing else. -/
def dbC1 : DB := ⟨[], [⟨1, some 12, some "Available", none, none⟩], [], [], [], [], []⟩

/-- Fixture for C10: one shako assigned to member 123456789. -/
def dbC10 : DB :=
  ⟨[], [⟨1, some 12, some "Assigned", some "123456789", none⟩], [], [], [], [], []⟩

/-- A minimal member record for fixtures. -/
def mkMember (sid : String) : Student :=
  ⟨sid, some "Test", some "Member", none, none, none, some "Student", none, none,
   some "Flags", none, none⟩

/-- Fixture for C2 (spec Scenario B): member 123456789 holds Headwear#12
and Coat#7 (hanger 3), with the matching composite uniform record. -/
def dbC2 : DB :=
  ⟨[mkMember "123456789"],
   [⟨1, some 12, some "Assigned", some "123456789", none⟩],
   [⟨1, some 7, some 3, some "Assigned", some "123456789", none⟩],
   [], [],
   [⟨1, some "123456789", some 12, some 3, none, some 7, none, some "Assigned", none⟩],
   []⟩

/-- Fixture for C4 / C7 (spec Scenario C): member 123456789 holds an
assigned instrument. -/
def dbC4 : DB :=
  ⟨[mkMember "123456789"],
   [], [], [], [], [],
   [⟨1, some "123456789", some "Tuba", some "S1", some "C1", none, some "Good",
     some "Assigned", none⟩]⟩

/-- Fixture for C8: member 123456789's composite record references shako
number 0 (a falsy reference); shako #0 is assigned to the member and
shako #12 is available. -/
def dbC8 : DB :=
  ⟨[mkMember "123456789"],
   [⟨1, some 0, some "Assigned", some "123456789", none⟩,
    ⟨2, some 12, some "Available", none, none⟩],
   [], [], [],
   [⟨1, some "123456789", some 0, none, none, none, none, some "Assigned", none⟩],
   []⟩

/-- Fixture for C8's amended theorem: member holds shako #5 (truthy) and
requests shako #12. -/
def dbC8W : DB :=
  ⟨[mkMember "123456789"],
   [⟨1, some 5, some "Assigned", some "123456789", none⟩,
    ⟨2, some 12, some "Available", none, none⟩],
   [], [], [],
   [⟨1, some "123456789", some 5, none, none, none, none, some "Assigned", none⟩],
   []⟩

/-- Fixture for C9: member 123456789 holds a shako through a composite
record (unique per member). -/
def dbC9 : DB :=
  ⟨[mkMember "123456789"],
   [⟨1, some 12, some "Assigned", some "123456789", none⟩],
   [], [], [],
   [⟨1, some "123456789", some 12, none, none, none, none, some "Assigned", none⟩],
   []⟩

/-- Fixture for C3: two members; shako #12 available. -/
def dbC3 : DB :=
  ⟨[mkMember "111111111", mkMember "222222222"],
   [⟨1, some 12, some "Available", none, none⟩],
   [], [], [], [], []⟩

/-- A text field value that survives the snapshot round trip: absent, or
already stripped and non-empty (the importer strips every field and turns
empty fields into NULL). -/
def cleanField (f : Option String) : Prop :=
  match f with
  | none => True
  | some s => pyStrip s = s ∧ s ≠ ""

instance (f : Option String) : Decidable (cleanField f) := by
  unfold cleanField
  cases f <;> infer_instance

/-- Round-trip-clean shako record: clean text fields and a status inside
its CHECK constraint. -/
def cleanShako (r : Shako) : Prop :=
  cleanField r.status ∧ cleanField r.student_id ∧ cleanField r.notes ∧
  equipStatusOk r.status = true

instance (r : Shako) : Decidable (cleanShako r) := by
  unfold cleanShako
  infer_instance

/-- Round-trip-clean coat record. -/
def cleanCoat (r : Coat) : Prop :=
  cleanField r.status ∧ cleanField r.student_id ∧ cleanField r.notes ∧
  equipStatusOk r.status = true

instance (r : Coat) : Decidable (cleanCoat r) := by
  unfold cleanCoat
  infer_instance

/-- Round-trip-clean pants record. -/
def cleanPants (r : Pants) : Prop :=
  cleanField r.status ∧ cleanField r.student_id ∧ cleanField r.notes ∧
  equipStatusOk r.status = true

instance (r : Pants) : Decidable (cleanPants r) := by
  unfold cleanPants
  infer_instance

/-- Round-trip-clean garment bag record (its key is itself text). -/
def cleanBag (r : GarmentBag) : Prop :=
  cleanField r.bag_num ∧ cleanField r.status ∧ cleanField r.student_id ∧
  cleanField r.notes ∧ equipStatusOk r.status = true

instance (r : GarmentBag) : Decidable (cleanBag r) := by
  unfold cleanBag
  infer_instance

/-- Round-trip-clean composite uniform record. -/
def cleanUniform (u : UniformRec) : Prop :=
  cleanField u.student_id ∧ cleanField u.garment_bag ∧ cleanField u.status ∧
  cleanField u.notes ∧ equipStatusOk u.status = true

instance (u : UniformRec) : Decidable (cleanUniform u) := by
  unfold cleanUniform
  infer_instance

/-- Round-trip-clean instrument record (status and condition inside their
CHECK constraints). -/
def cleanInstrument (r : Instrument) : Prop :=
  cleanField r.student_id ∧ cleanField r.instrument_name ∧
  cleanField r.instrument_serial ∧ cleanField r.instrument_case ∧
  cleanField r.model ∧ cleanField r.condition ∧ cleanField r.status ∧
  cleanField r.notes ∧ equipStatusOk r.status = true ∧ conditionOk r.condition = true

instance (r : Instrument) : Decidable (cleanInstrument r) := by
  unfold cleanInstrument
  infer_instance

/-- Round-trip-clean member record (status/section inside their CHECK
constraints, key stripped and non-empty). -/
def cleanStudent (s : Student) : Prop :=
  pyStrip s.student_id = s.student_id ∧ s.student_id ≠ "" ∧
  cleanField s.first_name ∧ cleanField s.last_name ∧ cleanField s.phone ∧
  cleanField s.email ∧ cleanField s.year_came_up ∧ cleanField s.status ∧
  cleanField s.guardian_name ∧ cleanField s.guardian_phone ∧
  cleanField s.section' ∧ cleanField s.glove_size ∧ cleanField s.spat_size ∧
  studentStatusOk s.status = true ∧ sectionOk s.section' = true

instance (s : Student) : Decidable (cleanStudent s) := by
  unfold cleanStudent
  infer_instance

/-- A store the snapshot codec round-trips exactly: every record clean
(text fields stripped/non-empty-or-null, enum fields inside their CHECK
constraints) and the table keys honouring the schema's PRIMARY KEY /
UNIQUE constraints (so that every import insert succeeds). -/
def cleanDB (db : DB) : Prop :=
  (∀ s ∈ db.students, cleanStudent s) ∧
  db.students.Pairwise (fun a b => a.student_id ≠ b.student_id) ∧
  (∀ r ∈ db.shakos, cleanShako r) ∧
  db.shakos.Pairwise (fun a b =>
    a.id ≠ b.id ∧ (b.shako_num.isSome = true → a.shako_num ≠ b.shako_num)) ∧
  (∀ r ∈ db.coats, cleanCoat r) ∧
  db.coats.Pairwise (fun a b =>
    a.id ≠ b.id ∧ (b.coat_num.isSome = true → a.coat_num ≠ b.coat_num)) ∧
  (∀ r ∈ db.pants, cleanPants r) ∧
  db.pants.Pairwise (fun a b =>
    a.id ≠ b.id ∧ (b.pants_num.isSome = true → a.pants_num ≠ b.pants_num)) ∧
  (∀ r ∈ db.garment_bags, cleanBag r) ∧
  db.garment_bags.Pairwise (fun a b =>
    a.id ≠ b.id ∧ (b.bag_num.isSome = true → a.bag_num ≠ b.bag_num)) ∧
  (∀ u ∈ db.uniforms, cleanUniform u) ∧
  db.uniforms.Pairwise (fun a b => a.id ≠ b.id) ∧
  (∀ r ∈ db.instruments, cleanInstrument r) ∧
  db.instruments.Pairwise (fun a b => a.id ≠ b.id)

instance (db : DB) : Decidable (cleanDB db) := by
  unfold cleanDB
  infer_instance

/-- Fixture for C6's counterexample: one shako whose notes carry a
leading space (and no comma). -/
def dbC6 : DB :=
  ⟨[], [⟨1, some 12, some "Available", none, some " x"⟩], [], [], [], [], []⟩

/-- Fixture for C6's witness: a populated clean store (member, assigned
shako with composite record, spare coat, instrument). -/
def dbC6W : DB :=
  ⟨[mkMember "123456789"],
   [⟨1, some 12, some "Assigned", some "123456789", none⟩],
   [⟨1, some 7, some 3, some "Available", none, some "wool"⟩],
   [], [],
   [⟨1, some "123456789", some 12, none, none, none, none, some "Assigned", none⟩],
   [⟨1, none, some "Tuba", some "S1", none, none, some "Good", some "Available", none⟩]⟩

end EquipMgmt

namespace EquipMgmt

theorem itemInv_assigned (sid : String) : itemInv (some sid) (some "Assigned") := by
  simp [itemInv]

theorem itemInv_available : itemInv none (some "Available") := by
  simp [itemInv]

theorem dbInv_update_shako (db : DB) (n : Nat) (sid? : Option String) (st : String)
    (nts : Option String) (hc : itemInv sid? (some st)) (h : dbInv db) :
    dbInv (update_shako db n sid? (some st) nts) := by
  obtain ⟨h1, h2, h3, h4, h5⟩ := h
  refine ⟨?_, h2, h3, h4, h5⟩
  intro r hr
  simp only [update_shako, List.mem_map] at hr
  obtain ⟨r₀, hr₀, rfl⟩ := hr
  by_cases hm : r₀.shako_num = some n
  · simp only [if_pos hm, overr]
    exact hc
  · simp only [if_neg hm]
    exact h1 r₀ hr₀

theorem dbInv_update_coat (db : DB) (n : Nat) (sid? : Option String) (st : String)
    (hang : Option Nat) (nts : Option String) (hc : itemInv sid? (some st))
    (h : dbInv db) :
    dbInv (update_coat db n sid? (some st) hang nts) := by
  obtain ⟨h1, h2, h3, h4, h5⟩ := h
  refine ⟨h1, ?_, h3, h4, h5⟩
  intro r hr
  simp only [update_coat, List.mem_map] at hr
  obtain ⟨r₀, hr₀, rfl⟩ := hr
  by_cases hm : r₀.coat_num = some n
  · simp only [if_pos hm, overr]
    exact hc
  · simp only [if_neg hm]
    exact h2 r₀ hr₀

theorem dbInv_update_pants (db : DB) (n : Nat) (sid? : Option String) (st : String)
    (nts : Option String) (hc : itemInv sid? (some st)) (h : dbInv db) :
    dbInv (update_pants db n sid? (some st) nts) := by
  obtain ⟨h1, h2, h3, h4, h5⟩ := h
  refine ⟨h1, h2, ?_, h4, h5⟩
  intro r hr
  simp only [update_pants, List.mem_map] at hr
  obtain ⟨r₀, hr₀, rfl⟩ := hr
  by_cases hm : r₀.pants_num = some n
  · simp only [if_pos hm, overr]
    exact hc
  · simp only [if_neg hm]
    exact h3 r₀ hr₀

theorem dbInv_update_bag (db : DB) (b : String) (sid? : Option String) (st : String)
    (nts : Option String) (hc : itemInv sid? (some st)) (h : dbInv db) :
    dbInv (update_bag db b sid? (some st) nts) := by
  obtain ⟨h1, h2, h3, h4, h5⟩ := h
  refine ⟨h1, h2, h3, ?_, h5⟩
  intro r hr
  simp only [update_bag, List.mem_map] at hr
  obtain ⟨r₀, hr₀, rfl⟩ := hr
  by_cases hm : r₀.bag_num = some b
  · simp only [if_pos hm, overr]
    exact hc
  · simp only [if_neg hm]
    exact h4 r₀ hr₀

theorem dbInv_update_student (db : DB) (sid field : String) (v : Option String)
    (h : dbInv db) : dbInv (update_student db sid field v) := by
  unfold update_student
  split_ifs <;> exact h

theorem dbInv_upsert_uniform_row (db : DB) (sid : String) (h : dbInv db) :
    dbInv (upsert_uniform_row db sid) := by
  unfold upsert_uniform_row
  split_ifs <;> exact h

theorem dbInv_merge_uniform_row (db : DB) (sid : String) (p : Pieces) (h : dbInv db) :
    dbInv (merge_uniform_row db sid p) := h

theorem dbInv_sync_shako (db : DB) (sid : String) (o : Option Nat) (h : dbInv db) :
    dbInv (sync_shako db sid o) := by
  cases o with
  | none => exact h
  | some n => exact dbInv_update_shako db n (some sid) "Assigned" none (itemInv_assigned sid) h

theorem dbInv_sync_coat (db : DB) (sid : String) (hang : Option Nat) (o : Option Nat)
    (h : dbInv db) : dbInv (sync_coat db sid hang o) := by
  cases o with
  | none => exact h
  | some n =>
    exact dbInv_update_coat db n (some sid) "Assigned" hang none (itemInv_assigned sid) h

theorem dbInv_sync_pants (db : DB) (sid : String) (o : Option Nat) (h : dbInv db) :
    dbInv (sync_pants db sid o) := by
  cases o with
  | none => exact h
  | some n => exact dbInv_update_pants db n (some sid) "Assigned" none (itemInv_assigned sid) h

theorem dbInv_sync_bag (db : DB) (sid : String) (o : Option String) (h : dbInv db) :
    dbInv (sync_bag db sid o) := by
  cases o with
  | none => exact h
  | some b =>
    simp only [sync_bag]
    split_ifs with hb
    · exact dbInv_update_bag db b (some sid) "Assigned" none (itemInv_assigned sid) h
    · exact h

theorem dbInv_assign_uniform_piece (db : DB) (sid : String) (p : Pieces) (h : dbInv db) :
    dbInv (assign_uniform_piece db sid p) :=
  dbInv_sync_bag _ _ _ (dbInv_sync_pants _ _ _ (dbInv_sync_coat _ _ _ _
    (dbInv_sync_shako _ _ _ (dbInv_merge_uniform_row _ _ _
      (dbInv_upsert_uniform_row _ _ h)))))

theorem dbInv_release_shako (db : DB) (o : Option Nat) (h : dbInv db) :
    dbInv (release_shako db o) := by
  unfold release_shako
  split_ifs with ht
  · exact dbInv_update_shako db (o.getD 0) none "Available" none itemInv_available h
  · exact h

theorem dbInv_release_coat (db : DB) (o : Option Nat) (h : dbInv db) :
    dbInv (release_coat db o) := by
  unfold release_coat
  split_ifs with ht
  · exact dbInv_update_coat db (o.getD 0) none "Available" none none itemInv_available h
  · exact h

theorem dbInv_release_pants (db : DB) (o : Option Nat) (h : dbInv db) :
    dbInv (release_pants db o) := by
  unfold release_pants
  split_ifs with ht
  · exact dbInv_update_pants db (o.getD 0) none "Available" none itemInv_available h
  · exact h

theorem dbInv_release_bag (db : DB) (o : Option String) (h : dbInv db) :
    dbInv (release_bag db o) := by
  unfold release_bag
  split_ifs with ht
  · exact dbInv_update_bag db (o.getD "") none "Available" none itemInv_available h
  · exact h

theorem dbInv_return_uniform_piece (db : DB) (sid : String) (h : dbInv db) :
    dbInv (return_uniform_piece db sid) := by
  unfold return_uniform_piece
  cases hf : db.uniforms.find? (fun u => u.student_id = some sid) with
  | none => exact h
  | some u =>
    exact dbInv_release_bag _ _ (dbInv_release_pants _ _ (dbInv_release_coat _ _
      (dbInv_release_shako _ _ h)))

theorem dbInv_delete_student (db : DB) (sid : String) (h : dbInv db) :
    dbInv (delete_student db sid true) := by
  unfold delete_student
  split_ifs with hex hc
  · exact h
  · obtain ⟨h1, h2, h3, h4, h5⟩ := h
    refine ⟨?_, ?_, ?_, ?_, ?_⟩ <;>
      · intro r hr
        dsimp only at hr
        simp only [List.mem_map] at hr
        obtain ⟨r₀, hr₀, rfl⟩ := hr
        by_cases hm : r₀.student_id = some sid
        · simp only [if_pos hm]
          exact itemInv_available
        · simp only [if_neg hm]
          first
            | exact h1 r₀ hr₀
            | exact h2 r₀ hr₀
            | exact h3 r₀ hr₀
            | exact h4 r₀ hr₀
            | exact h5 r₀ hr₀
  · exact absurd rfl hc

theorem dbInv_do_assign_apply (db : DB) (sid : String)
    (shako_num coat_num pants_num : Option Nat) (bag_val : Option String)
    (hang : Option Nat) (glove spat : Option String) (h : dbInv db) :
    dbInv (do_assign_apply db sid shako_num coat_num pants_num bag_val hang glove spat) := by
  unfold do_assign_apply
  have h1 := dbInv_assign_uniform_piece db sid
    ⟨shako_num, hang,
     (match bag_val with
      | some b => if b != "" then some b else none
      | none => none),
     coat_num, pants_num⟩ h
  have h5 := dbInv_sync_bag _ sid bag_val (dbInv_sync_pants _ sid pants_num
    (dbInv_sync_coat _ sid hang coat_num (dbInv_sync_shako _ sid shako_num h1)))
  cases glove with
  | none =>
    cases spat with
    | none => exact h5
    | some g => exact dbInv_update_student _ sid "spat_size" (some g) h5
  | some g =>
    cases spat with
    | none => exact dbInv_update_student _ sid "glove_size" (some g) h5
    | some g2 =>
      exact dbInv_update_student _ sid "spat_size" (some g2)
        (dbInv_update_student _ sid "glove_size" (some g) h5)

theorem dbInv_do_assign (db : DB) (sid : String)
    (shako_num coat_num pants_num : Option Nat) (bag_val glove spat : Option String)
    (h : dbInv db) :
    dbInv (do_assign db sid shako_num coat_num pants_num bag_val glove spat).2 := by
  unfold do_assign
  split_ifs <;>
    first
      | exact h
      | exact dbInv_do_assign_apply db sid shako_num coat_num pants_num bag_val
          (hanger_from_coat db coat_num) glove spat h

/-- C1 (counterexample): the claimed invariant `assignee != null ⇔ status
== 'Assigned'` is NOT preserved by every operation — a partial update
(`update_shako` with only a status provided) turns an available,
unassigned shako into status `'Assigned'` with a null assignee, because
the update functions unconditionally overwrite `student_id` with the
(absent) argument. -/
theorem C1_counterexample :
    dbInv dbC1 ∧ ¬ dbInv (update_shako dbC1 12 none (some "Assigned") none) := by
  decide

/-- C1 (amended): the assignee/status invariant holds before and after
assignment (`do_assign`, any outcome), ReturnAll (`return_uniform_piece`)
and member deletion (`delete_student`, cascade completing); the partial
updates (see the counterexample) and snapshot import are excluded. -/
theorem C1_invariant_preserved (db : DB) (sid sid2 sid3 : String)
    (shako_num coat_num pants_num : Option Nat) (bag_val glove spat : Option String)
    (h : dbInv db) :
    dbInv (do_assign db sid shako_num coat_num pants_num bag_val glove spat).2 ∧
    dbInv (return_uniform_piece db sid2) ∧
    dbInv (delete_student db sid3 true) :=
  ⟨dbInv_do_assign db sid shako_num coat_num pants_num bag_val glove spat h,
   dbInv_return_uniform_piece db sid2 h,
   dbInv_delete_student db sid3 h⟩

/-- C1 witness: the amended theorem applied at a concrete store. -/
theorem C1_invariant_preserved_witness :
    dbInv (do_assign dbC1 "123456789" (some 12) none none none none none).2 ∧
    dbInv (return_uniform_piece dbC1 "123456789") ∧
    dbInv (delete_student dbC1 "123456789" true) :=
  C1_invariant_preserved dbC1 "123456789" "123456789" "123456789"
    (some 12) none none none none none (by decide)

theorem overr_eq_ite [DecidableEq α] (a b : Option α) :
    overr a b = if a = none then b else a := by
  cases a <;> simp [overr]

/-- C10 (counterexample): `update_shako` providing only a status does NOT
leave the record's assignee unchanged — the shako assigned to member
123456789 loses its assignee when only `status='Maintenance'` is
supplied. -/
theorem C10_counterexample :
    (dbC10.shakos = [⟨1, some 12, some "Assigned", some "123456789", none⟩]) ∧
    (update_shako dbC10 12 none (some "Maintenance") none).shakos =
      [⟨1, some 12, some "Maintenance", none, none⟩] := by
  decide

/-- C10 (amended): each partial-update operation changes only the
provided optional fields and leaves every other field and every
non-matching record unchanged, EXCEPT the assignee (`student_id`), which
is unconditionally overwritten with the given argument (null when
omitted).  Stated for all five update functions. -/
theorem C10_partial_update_semantics :
    (∀ (db : DB) (n : Nat) (sid? : Option String) (st nts : Option String)
        (i : Nat) (r : Shako), db.shakos[i]? = some r →
      ∃ r', (update_shako db n sid? st nts).shakos[i]? = some r' ∧
        (r.shako_num ≠ some n → r' = r) ∧
        (r.shako_num = some n →
          r'.id = r.id ∧ r'.shako_num = r.shako_num ∧
          r'.student_id = sid? ∧
          r'.status = (if st = none then r.status else st) ∧
          r'.notes = (if nts = none then r.notes else nts))) ∧
    (∀ (db : DB) (n : Nat) (sid? : Option String) (st : Option String)
        (hang : Option Nat) (nts : Option String) (i : Nat) (r : Coat),
        db.coats[i]? = some r →
      ∃ r', (update_coat db n sid? st hang nts).coats[i]? = some r' ∧
        (r.coat_num ≠ some n → r' = r) ∧
        (r.coat_num = some n →
          r'.id = r.id ∧ r'.coat_num = r.coat_num ∧
          r'.student_id = sid? ∧
          r'.status = (if st = none then r.status else st) ∧
          r'.hanger_num = (if hang = none then r.hanger_num else hang) ∧
          r'.notes = (if nts = none then r.notes else nts))) ∧
    (∀ (db : DB) (n : Nat) (sid? : Option String) (st nts : Option String)
        (i : Nat) (r : Pants), db.pants[i]? = some r →
      ∃ r', (update_pants db n sid? st nts).pants[i]? = some r' ∧
        (r.pants_num ≠ some n → r' = r) ∧
        (r.pants_num = some n →
          r'.id = r.id ∧ r'.pants_num = r.pants_num ∧
          r'.student_id = sid? ∧
          r'.status = (if st = none then r.status else st) ∧
          r'.notes = (if nts = none then r.notes else nts))) ∧
    (∀ (db : DB) (b : String) (sid? : Option String) (st nts : Option String)
        (i : Nat) (r : GarmentBag), db.garment_bags[i]? = some r →
      ∃ r', (update_bag db b sid? st nts).garment_bags[i]? = some r' ∧
        (r.bag_num ≠ some b → r' = r) ∧
        (r.bag_num = some b →
          r'.id = r.id ∧ r'.bag_num = r.bag_num ∧
          r'.student_id = sid? ∧
          r'.status = (if st = none then r.status else st) ∧
          r'.notes = (if nts = none then r.notes else nts))) ∧
    (∀ (db : DB) (iid : Nat) (sid? : Option String)
        (st nts case' name model condition : Option String)
        (i : Nat) (r : Instrument), db.instruments[i]? = some r →
      ∃ r', (update_instrument_by_id db iid sid? st nts case' name model
          condition).instruments[i]? = some r' ∧
        (r.id ≠ iid → r' = r) ∧
        (r.id = iid →
          r'.id = r.id ∧
          r'.student_id = sid? ∧
          r'.status = (if st = none then r.status else st) ∧
          r'.notes = (if nts = none then r.notes else nts) ∧
          r'.instrument_case = (if case' = none then r.instrument_case else case') ∧
          r'.instrument_name = (if name = none then r.instrument_name else name) ∧
          r'.model = (if model = none then r.model else model) ∧
          r'.condition = (if condition = none then r.condition else condition) ∧
          r'.instrument_serial = r.instrument_serial)) := by
  refine ⟨?_, ?_, ?_, ?_, ?_⟩
  · intro db n sid? st nts i r hr
    have hmap : (update_shako db n sid? st nts).shakos[i]? =
        some (if r.shako_num = some n then
          { r with student_id := sid?, status := overr st r.status,
                   notes := overr nts r.notes }
        else r) := by
      show (db.shakos.map _)[i]? = _
      rw [List.getElem?_map, hr]
      rfl
    by_cases hm : r.shako_num = some n
    · refine ⟨_, hmap, fun hneg => absurd hm hneg, fun _ => ?_⟩
      simp [if_pos hm, overr_eq_ite]
    · refine ⟨_, hmap, fun _ => ?_, fun hpos => absurd hpos hm⟩
      simp only [if_neg hm]
  · intro db n sid? st hang nts i r hr
    have hmap : (update_coat db n sid? st hang nts).coats[i]? =
        some (if r.coat_num = some n then
          { r with student_id := sid?, status := overr st r.status,
                   hanger_num := overr hang r.hanger_num,
                   notes := overr nts r.notes }
        else r) := by
      show (db.coats.map _)[i]? = _
      rw [List.getElem?_map, hr]
      rfl
    by_cases hm : r.coat_num = some n
    · refine ⟨_, hmap, fun hneg => absurd hm hneg, fun _ => ?_⟩
      simp [if_pos hm, overr_eq_ite]
    · refine ⟨_, hmap, fun _ => ?_, fun hpos => absurd hpos hm⟩
      simp only [if_neg hm]
  · intro db n sid? st nts i r hr
    have hmap : (update_pants db n sid? st nts).pants[i]? =
        some (if r.pants_num = some n then
          { r with student_id := sid?, status := overr st r.status,
                   notes := overr nts r.notes }
        else r) := by
      show (db.pants.map _)[i]? = _
      rw [List.getElem?_map, hr]
      rfl
    by_cases hm : r.pants_num = some n
    · refine ⟨_, hmap, fun hneg => absurd hm hneg, fun _ => ?_⟩
      simp [if_pos hm, overr_eq_ite]
    · refine ⟨_, hmap, fun _ => ?_, fun hpos => absurd hpos hm⟩
      simp only [if_neg hm]
  · intro db b sid? st nts i r hr
    have hmap : (update_bag db b sid? st nts).garment_bags[i]? =
        some (if r.bag_num = some b then
          { r with student_id := sid?, status := overr st r.status,
                   notes := overr nts r.notes }
        else r) := by
      show (db.garment_bags.map _)[i]? = _
      rw [List.getElem?_map, hr]
      rfl
    by_cases hm : r.bag_num = some b
    · refine ⟨_, hmap, fun hneg => absurd hm hneg, fun _ => ?_⟩
      simp [if_pos hm, overr_eq_ite]
    · refine ⟨_, hmap, fun _ => ?_, fun hpos => absurd hpos hm⟩
      simp only [if_neg hm]
  · intro db iid sid? st nts case' name model condition i r hr
    have hmap : (update_instrument_by_id db iid sid? st nts case' name model
        condition).instruments[i]? =
        some (if r.id = iid then
          { r with student_id := sid?, status := overr st r.status,
                   notes := overr nts r.notes,
                   instrument_case := overr case' r.instrument_case,
                   instrument_name := overr name r.instrument_name,
                   model := overr model r.model,
                   condition := overr condition r.condition }
        else r) := by
      show (db.instruments.map _)[i]? = _
      rw [List.getElem?_map, hr]
      rfl
    by_cases hm : r.id = iid
    · refine ⟨_, hmap, fun hneg => absurd hm hneg, fun _ => ?_⟩
      simp [if_pos hm, overr_eq_ite]
    · refine ⟨_, hmap, fun _ => ?_, fun hpos => absurd hpos hm⟩
      simp only [if_neg hm]

/-- C10 witness: the amended frame theorem applied to the concrete store,
providing only a status. -/
theorem C10_partial_update_semantics_witness :
    ∃ r', (update_shako dbC10 12 none (some "Maintenance") none).shakos[0]? = some r' ∧
      ((⟨1, some 12, some "Assigned", some "123456789", none⟩ : Shako).shako_num ≠ some 12 →
        r' = ⟨1, some 12, some "Assigned", some "123456789", none⟩) ∧
      ((⟨1, some 12, some "Assigned", some "123456789", none⟩ : Shako).shako_num = some 12 →
        r'.id = 1 ∧ r'.shako_num = some 12 ∧ r'.student_id = none ∧
        r'.status = (if (some "Maintenance" : Option String) = none
          then some "Assigned" else some "Maintenance") ∧
        r'.notes = (if (none : Option String) = none then none else none)) :=
  C10_partial_update_semantics.1 dbC10 12 none (some "Maintenance") none 0
    ⟨1, some 12, some "Assigned", some "123456789", none⟩ (by decide)

/-- C2: evaluating `return_uniform_piece` at spec Scenario B.  Both
components do become `Available` with a null assignee and the composite
record is deleted, but the coat's `hanger_number` is NOT cleared (it
stays 3): the call passes `hanger_num=None` and `update_coat` treats
`None` as "field not provided".  The code diverges from the claim (and
from the spec's Scenario B) on the hanger field. -/
theorem C2_return_keeps_hanger :
    (return_uniform_piece dbC2 "123456789").uniforms = [] ∧
    (return_uniform_piece dbC2 "123456789").shakos =
      [⟨1, some 12, some "Available", none, none⟩] ∧
    (return_uniform_piece dbC2 "123456789").coats =
      [⟨1, some 7, some 3, some "Available", none, none⟩] := by
  decide

/-- C4: evaluating `delete_student` at a state where the cascade fails
(`cascade_ok = false` models a store failure swallowed by the
`except Exception: pass`).  The member row is deleted anyway, leaving the
instrument still assigned to the deleted member — the operation is NOT
all-or-nothing, contradicting the function's own docstring ("Uses
transactions for all-or-nothing completion ... Rolls back on failure"). -/
theorem C4_delete_not_atomic :
    (delete_student dbC4 "123456789" false).students = [] ∧
    (delete_student dbC4 "123456789" false).instruments =
      [⟨1, some "123456789", some "Tuba", some "S1", some "C1", none, some "Good",
        some "Assigned", none⟩] := by
  decide

theorem uniforms_release_shako (db : DB) (o : Option Nat) :
    (release_shako db o).uniforms = db.uniforms := by
  unfold release_shako
  split_ifs <;> rfl

theorem uniforms_release_coat (db : DB) (o : Option Nat) :
    (release_coat db o).uniforms = db.uniforms := by
  unfold release_coat
  split_ifs <;> rfl

theorem uniforms_release_pants (db : DB) (o : Option Nat) :
    (release_pants db o).uniforms = db.uniforms := by
  unfold release_pants
  split_ifs <;> rfl

theorem uniforms_release_bag (db : DB) (o : Option String) :
    (release_bag db o).uniforms = db.uniforms := by
  unfold release_bag
  split_ifs <;> rfl

theorem return_noop (db : DB) (sid : String)
    (hf : db.uniforms.find? (fun u => u.student_id = some sid) = none) :
    return_uniform_piece db sid = db := by
  unfold return_uniform_piece
  rw [hf]

/-- C9: ReturnAll is idempotent.  When the member has no composite
uniform record the call returns without error and changes no state; and
under the spec §3 invariant that a member has at most one composite
record, a second ReturnAll right after a first one is a no-op. -/
theorem C9_returnall_idempotent (db : DB) (sid : String)
    (huniq : ∀ u ∈ db.uniforms, ∀ v ∈ db.uniforms,
      u.student_id = some sid → v.student_id = some sid → u.id = v.id) :
    (db.uniforms.find? (fun u => u.student_id = some sid) = none →
      return_uniform_piece db sid = db) ∧
    return_uniform_piece (return_uniform_piece db sid) sid =
      return_uniform_piece db sid := by
  refine ⟨return_noop db sid, ?_⟩
  cases hf : db.uniforms.find? (fun u => u.student_id = some sid) with
  | none =>
    have h1 := return_noop db sid hf
    rw [h1]
    exact h1
  | some u =>
    have hmru : u ∈ db.uniforms := List.mem_of_find?_eq_some hf
    have hpu : u.student_id = some sid := by
      have := List.find?_some hf
      simpa using this
    have huni : (return_uniform_piece db sid).uniforms =
        db.uniforms.filter (fun v => v.id ≠ u.id) := by
      unfold return_uniform_piece
      rw [hf]
      rw [uniforms_release_bag, uniforms_release_pants, uniforms_release_coat,
        uniforms_release_shako]
    apply return_noop
    rw [huni]
    apply List.find?_eq_none.mpr
    intro v hv hps
    have hvm := List.mem_filter.mp hv
    have hvid : v.id ≠ u.id := by simpa using hvm.2
    have hpv : v.student_id = some sid := by simpa using hps
    exact hvid (huniq v hvm.1 u hmru hpv hpu)

/-- C9 witness: the theorem applied at a member holding one uniform. -/
theorem C9_returnall_idempotent_witness :
    return_uniform_piece (return_uniform_piece dbC9 "123456789") "123456789" =
      return_uniform_piece dbC9 "123456789" :=
  (C9_returnall_idempotent dbC9 "123456789" (by decide)).2

/-- C8 (counterexample): member 123456789's composite record already
references a shako (number 0), yet requesting shako #12 is NOT rejected —
the already-assigned check uses Python truthiness (`if shako_num and
current.get("shako_num")`) and `0` is falsy, so the assignment succeeds
and changes state. -/
theorem C8_counterexample :
    (get_uniforms_by_student_id dbC8 "123456789").map (fun u => u.shako_num) =
      some (some 0) ∧
    (do_assign dbC8 "123456789" (some 12) none none none none none).1 = .success ∧
    (do_assign dbC8 "123456789" (some 12) none none none none none).2 ≠ dbC8 := by
  decide

/-- C8 (amended): when the member already holds a component of the same
kind as one requested and BOTH references are truthy (a non-zero number /
non-empty bag id), the assignment is rejected with AlreadyAssigned and no
state changes. -/
theorem C8_already_assigned_rejected (db : DB) (sid : String)
    (shako coat pants : Option Nat) (bag glove spat : Option String) (u : UniformRec)
    (hv : validSid sid = true)
    (hex : (get_student_by_id db sid).isSome = true)
    (hcur : get_uniforms_by_student_id db sid = some u)
    (hkind : ((natTruthy shako && natTruthy u.shako_num) ||
              (natTruthy coat && natTruthy u.coat_num) ||
              (natTruthy pants && natTruthy u.pants_num) ||
              (strTruthy bag && strTruthy u.garment_bag)) = true) :
    do_assign db sid shako coat pants bag glove spat = (.alreadyAssigned, db) := by
  have h1 : (!validSid sid) = false := by rw [hv]; rfl
  have h2 : (get_student_by_id db sid).isNone = false := by
    cases hgs : get_student_by_id db sid
    · rw [hgs] at hex
      cases hex
    · rfl
  have h3 : already_assigned_check db sid shako coat pants bag = true := by
    unfold already_assigned_check
    rw [hcur]
    exact hkind
  unfold do_assign
  rw [h1, h2, h3]
  simp

/-- C8 witness: the amended theorem applied where the member holds shako
number 5 (truthy) and requests shako #12. -/
theorem C8_already_assigned_rejected_witness :
    do_assign dbC8W "123456789" (some 12) none none none none none =
      (.alreadyAssigned, dbC8W) :=
  C8_already_assigned_rejected dbC8W "123456789" (some 12) none none none none none
    ⟨1, some "123456789", some 5, none, none, none, none, some "Assigned", none⟩
    (by decide) (by decide) (by decide) (by decide)

/-- C7: after a successful `delete_student` (member exists, cascade
completes), no table still references the member as assignee, every
record that was assigned to the member is now `Available` with a null
assignee (all its other fields unchanged), and the member row is gone. -/
theorem C7_delete_member_cascade (db : DB) (sid : String)
    (hex : (get_student_by_id db sid).isSome = true) :
    (∀ s ∈ (delete_student db sid true).students, s.student_id ≠ sid) ∧
    (∀ r ∈ (delete_student db sid true).uniforms, r.student_id ≠ some sid) ∧
    (∀ r ∈ (delete_student db sid true).shakos, r.student_id ≠ some sid) ∧
    (∀ r ∈ (delete_student db sid true).coats, r.student_id ≠ some sid) ∧
    (∀ r ∈ (delete_student db sid true).pants, r.student_id ≠ some sid) ∧
    (∀ r ∈ (delete_student db sid true).garment_bags, r.student_id ≠ some sid) ∧
    (∀ r ∈ (delete_student db sid true).instruments, r.student_id ≠ some sid) ∧
    (∀ (i : Nat) (r : UniformRec), db.uniforms[i]? = some r →
      r.student_id = some sid → (delete_student db sid true).uniforms[i]? =
        some { r with student_id := none, status := some "Available" }) ∧
    (∀ (i : Nat) (r : Shako), db.shakos[i]? = some r →
      r.student_id = some sid → (delete_student db sid true).shakos[i]? =
        some { r with student_id := none, status := some "Available" }) ∧
    (∀ (i : Nat) (r : Coat), db.coats[i]? = some r →
      r.student_id = some sid → (delete_student db sid true).coats[i]? =
        some { r with student_id := none, status := some "Available" }) ∧
    (∀ (i : Nat) (r : Pants), db.pants[i]? = some r →
      r.student_id = some sid → (delete_student db sid true).pants[i]? =
        some { r with student_id := none, status := some "Available" }) ∧
    (∀ (i : Nat) (r : GarmentBag), db.garment_bags[i]? = some r →
      r.student_id = some sid → (delete_student db sid true).garment_bags[i]? =
        some { r with student_id := none, status := some "Available" }) ∧
    (∀ (i : Nat) (r : Instrument), db.instruments[i]? = some r →
      r.student_id = some sid → (delete_student db sid true).instruments[i]? =
        some { r with student_id := none, status := some "Available" }) := by
  have hni : (get_student_by_id db sid).isNone = false := by
    cases hgs : get_student_by_id db sid
    · rw [hgs] at hex
      cases hex
    · rfl
  have hd : delete_student db sid true =
      { students := db.students.filter (fun s => s.student_id ≠ sid),
        shakos := db.shakos.map (fun r =>
          if r.student_id = some sid then
            { r with student_id := none, status := some "Available" } else r),
        coats := db.coats.map (fun r =>
          if r.student_id = some sid then
            { r with student_id := none, status := some "Available" } else r),
        pants := db.pants.map (fun r =>
          if r.student_id = some sid then
            { r with student_id := none, status := some "Available" } else r),
        garment_bags := db.garment_bags.map (fun r =>
          if r.student_id = some sid then
            { r with student_id := none, status := some "Available" } else r),
        uniforms := db.uniforms.map (fun u =>
          if u.student_id = some sid then
            { u with student_id := none, status := some "Available" } else u),
        instruments := db.instruments.map (fun r =>
          if r.student_id = some sid then
            { r with student_id := none, status := some "Available" } else r) } := by
    unfold delete_student
    rw [hni]
    rfl
  rw [hd]
  refine ⟨?_, ?_, ?_, ?_, ?_, ?_, ?_, ?_, ?_, ?_, ?_, ?_, ?_⟩
  · intro s hs
    have := (List.mem_filter.mp hs).2
    simpa using this
  all_goals
    first
      | -- no-reference conjuncts over a mapped table
        (intro r hr
         simp only [List.mem_map] at hr
         obtain ⟨r₀, hr₀, rfl⟩ := hr
         by_cases hm : r₀.student_id = some sid
         · simp [if_pos hm]
         · simp only [if_neg hm]
           exact hm)
      | -- pointwise release conjuncts
        (intro i r hr hassig
         show (List.map _ _)[i]? = _
         rw [List.getElem?_map, hr]
         simp [if_pos hassig])

theorem restoreRow_STUDENTS (db : DB) (rest : List String) :
    restoreRow db ("STUDENTS" :: rest) = restoreStudent db (rest.map parseField) := rfl

theorem restoreRow_UNIFORMS (db : DB) (rest : List String) :
    restoreRow db ("UNIFORMS" :: rest) = restoreUniform db (rest.map parseField) := rfl

theorem restoreRow_INSTRUMENTS (db : DB) (rest : List String) :
    restoreRow db ("INSTRUMENTS" :: rest) = restoreInstrument db (rest.map parseField) := rfl

theorem restoreRow_SHAKOS (db : DB) (rest : List String) :
    restoreRow db ("SHAKOS" :: rest) = restoreShako db (rest.map parseField) := rfl

theorem restoreRow_COATS (db : DB) (rest : List String) :
    restoreRow db ("COATS" :: rest) = restoreCoat db (rest.map parseField) := rfl

theorem restoreRow_PANTS (db : DB) (rest : List String) :
    restoreRow db ("PANTS" :: rest) = restorePants db (rest.map parseField) := rfl

theorem restoreRow_BAGS (db : DB) (rest : List String) :
    restoreRow db ("BAGS" :: rest) = restoreBag db (rest.map parseField) := rfl

/-- C5 (counterexample): importing a `SHAKOS` line whose assignee is
present while its status is `'Available'` stores the mismatch verbatim —
the status is NOT forced to `'Assigned'` and the assignee is NOT forced
to null; `use_backup` performs no normalization at all. -/
theorem C5_counterexample :
    (use_backup [["SHAKOS", "1", "12", "Available", "123456789", ""]]).shakos =
      [⟨1, some 12, some "Available", some "123456789", none⟩] := by
  decide

/-- C5 (amended): Import inserts every parseable line exactly as parsed
(fields stripped, empty to NULL): for a `SHAKOS` line passing the schema
constraints, the stored record's status and assignee are the parsed
source fields unchanged — a status/assignee mismatch is preserved rather
than normalized, and the line is not rejected.  (Lines are skipped only
for schema violations: wrong field count, bad id, CHECK or UNIQUE
failures.) -/
theorem C5_import_inserts_as_is (t0 t1 t2 t3 t4 : String) (idv : Nat) (num? : Option Nat)
    (hid : parsePK (nextShakoId emptyDB) (parseField t0) = some idv)
    (hnum : parseNatField (parseField t1) = some num?)
    (hst : equipStatusOk (parseField t2) = true) :
    (use_backup [["SHAKOS", t0, t1, t2, t3, t4]]).shakos =
      [⟨idv, num?, parseField t2, parseField t3, parseField t4⟩] := by
  have h0 : use_backup [["SHAKOS", t0, t1, t2, t3, t4]] =
      restoreShako emptyDB [parseField t0, parseField t1, parseField t2,
        parseField t3, parseField t4] := by
    unfold use_backup
    simp only [List.foldl]
    rw [restoreRow_SHAKOS]
    rfl
  rw [h0]
  unfold restoreShako
  simp only [hid, hnum]
  simp [hst, emptyDB]

/-- C5 witness: the amended theorem applied to a concrete mismatched
line (assignee present, status `'Available'`): it is stored as-is. -/
theorem C5_import_inserts_as_is_witness :
    (use_backup [["SHAKOS", "7", "15", "Available", "555555555", "x"]]).shakos =
      [⟨7, some 15, some "Available", some "555555555", some "x"⟩] :=
  C5_import_inserts_as_is "7" "15" "Available" "555555555" "x" 7 (some 15)
    (by decide) (by decide) (by decide)

theorem isNone_false_of_isSome {o : Option α} (h : o.isSome = true) :
    o.isNone = false := by
  cases o
  · cases h
  · rfl

theorem shakos_update_shako (X : DB) (n : Nat) (a : Option String) (b c : Option String) :
    (update_shako X n a b c).shakos = X.shakos.map (fun r =>
      if r.shako_num = some n then
        { r with student_id := a, status := overr b r.status, notes := overr c r.notes }
      else r) := rfl

theorem shakos_update_student (db : DB) (sid f : String) (v : Option String) :
    (update_student db sid f v).shakos = db.shakos := by
  unfold update_student
  split_ifs <;> rfl

theorem shakos_upsert_uniform_row (db : DB) (sid : String) :
    (upsert_uniform_row db sid).shakos = db.shakos := by
  unfold upsert_uniform_row
  split_ifs <;> rfl

theorem shakos_merge_uniform_row (db : DB) (sid : String) (p : Pieces) :
    (merge_uniform_row db sid p).shakos = db.shakos := rfl

theorem shakos_sync_coat (db : DB) (sid : String) (hang : Option Nat) (o : Option Nat) :
    (sync_coat db sid hang o).shakos = db.shakos := by
  cases o <;> rfl

theorem shakos_sync_pants (db : DB) (sid : String) (o : Option Nat) :
    (sync_pants db sid o).shakos = db.shakos := by
  cases o <;> rfl

theorem shakos_sync_bag (db : DB) (sid : String) (o : Option String) :
    (sync_bag db sid o).shakos = db.shakos := by
  cases o with
  | none => rfl
  | some b =>
    simp only [sync_bag]
    split_ifs <;> rfl

/-- On the success path with a requested shako, the `shakos` table is the
original one transformed twice by the assign update (once inside
`assign_uniform_piece`, once by the second sync). -/
theorem shakos_do_assign_apply (db : DB) (sid : String) (n : Nat)
    (coat pants : Option Nat) (bag : Option String) (hang : Option Nat)
    (glove spat : Option String) :
    (do_assign_apply db sid (some n) coat pants bag hang glove spat).shakos =
    (update_shako (update_shako db n (some sid) (some "Assigned") none) n (some sid)
      (some "Assigned") none).shakos := by
  unfold do_assign_apply assign_uniform_piece
  cases glove with
  | none =>
    cases spat with
    | none =>
      simp only [shakos_sync_bag, shakos_sync_pants, shakos_sync_coat,
        shakos_update_shako, shakos_merge_uniform_row, shakos_upsert_uniform_row,
        sync_shako]
    | some g =>
      simp only [shakos_update_student, shakos_sync_bag, shakos_sync_pants,
        shakos_sync_coat, shakos_update_shako, shakos_merge_uniform_row,
        shakos_upsert_uniform_row, sync_shako]
  | some g =>
    cases spat with
    | none =>
      simp only [shakos_update_student, shakos_sync_bag, shakos_sync_pants,
        shakos_sync_coat, shakos_update_shako, shakos_merge_uniform_row,
        shakos_upsert_uniform_row, sync_shako]
    | some g2 =>
      simp only [shakos_update_student, shakos_sync_bag, shakos_sync_pants,
        shakos_sync_coat, shakos_update_shako, shakos_merge_uniform_row,
        shakos_upsert_uniform_row, sync_shako]

/-- Searching by shako number commutes with a number-preserving map. -/
theorem find_shako_map_pres (l : List Shako) (n : Nat) (g : Shako → Shako)
    (hg : ∀ r, (g r).shako_num = r.shako_num) :
    (l.map g).find? (fun r => r.shako_num = some n) =
      (l.find? (fun r => r.shako_num = some n)).map g := by
  induction l with
  | nil => rfl
  | cons a t ih =>
    by_cases hm : a.shako_num = some n
    · simp [List.find?_cons, hg, hm]
    · simp [List.find?_cons, hg, hm, ih]

/-- After a successful shako assignment, the shako's row carries the new
assignee and status `'Assigned'`. -/
theorem find_shako_after_apply (db : DB) (sid : String) (n : Nat)
    (coat pants : Option Nat) (bag : Option String) (hang : Option Nat)
    (glove spat : Option String) (r : Shako)
    (hfind : find_shako_by_number db n = some r) :
    find_shako_by_number (do_assign_apply db sid (some n) coat pants bag hang glove spat) n
      = some { r with student_id := some sid, status := some "Assigned" } := by
  have hp : r.shako_num = some n := by
    simpa using List.find?_some hfind
  have hg : ∀ s : Shako, ((fun s : Shako =>
      if s.shako_num = some n then
        { s with student_id := some sid, status := overr (some "Assigned") s.status,
                 notes := overr none s.notes }
      else s) s).shako_num = s.shako_num := by
    intro s
    by_cases hm : s.shako_num = some n <;> simp [hm]
  unfold find_shako_by_number at hfind ⊢
  rw [shakos_do_assign_apply, shakos_update_shako, shakos_update_shako,
    find_shako_map_pres _ _ _ hg, find_shako_map_pres _ _ _ hg, hfind]
  simp [hp, overr]

theorem do_assign_shako_missing (db : DB) (sid : String) (n : Nat)
    (hv : validSid sid = true)
    (hex : (get_student_by_id db sid).isSome = true)
    (hcur : get_uniforms_by_student_id db sid = none)
    (hfind : find_shako_by_number db n = none) :
    do_assign db sid (some n) none none none none none = (.missingParts, db) := by
  have h1 : (!validSid sid) = false := by rw [hv]; rfl
  have h2 := isNone_false_of_isSome hex
  have h3 : already_assigned_check db sid (some n) none none none = false := by
    unfold already_assigned_check
    rw [hcur]
  have h4 : missing_check db (some n) none none none = true := by
    unfold missing_check
    dsimp only
    rw [hfind]
    rfl
  unfold do_assign
  rw [h1, h2, h3, h4]
  simp

theorem do_assign_shako_notavail (db : DB) (sid : String) (n : Nat) (r : Shako)
    (hv : validSid sid = true)
    (hex : (get_student_by_id db sid).isSome = true)
    (hcur : get_uniforms_by_student_id db sid = none)
    (hfind : find_shako_by_number db n = some r)
    (hna : r.status ≠ some "Available") :
    do_assign db sid (some n) none none none none none = (.notAvailable, db) := by
  have h1 : (!validSid sid) = false := by rw [hv]; rfl
  have h2 := isNone_false_of_isSome hex
  have h3 : already_assigned_check db sid (some n) none none none = false := by
    unfold already_assigned_check
    rw [hcur]
  have hava : is_shako_available db n = false := by
    unfold is_shako_available
    rw [hfind]
    simp [hna]
  have h4 : missing_check db (some n) none none none = false := by
    unfold missing_check
    dsimp only
    rw [hfind]
    rfl
  have h5 : not_available_check db (some n) none none none = true := by
    unfold not_available_check
    dsimp only
    rw [hfind, hava]
    rfl
  unfold do_assign
  rw [h1, h2, h3, h4, h5]
  simp

theorem do_assign_shako_success (db : DB) (sid : String) (n : Nat)
    (hv : validSid sid = true)
    (hex : (get_student_by_id db sid).isSome = true)
    (hcur : get_uniforms_by_student_id db sid = none)
    (hav : is_shako_available db n = true) :
    do_assign db sid (some n) none none none none none =
      (.success, do_assign_apply db sid (some n) none none none
        (hanger_from_coat db none) none none) := by
  have hfs : (find_shako_by_number db n).isSome = true := by
    unfold is_shako_available at hav
    cases hf : find_shako_by_number db n
    · rw [hf] at hav
      simp at hav
    · rfl
  obtain ⟨r, hfind⟩ := Option.isSome_iff_exists.mp hfs
  have h1 : (!validSid sid) = false := by rw [hv]; rfl
  have h2 := isNone_false_of_isSome hex
  have h3 : already_assigned_check db sid (some n) none none none = false := by
    unfold already_assigned_check
    rw [hcur]
  have h4 : missing_check db (some n) none none none = false := by
    unfold missing_check
    dsimp only
    rw [hfind]
    rfl
  have h5 : not_available_check db (some n) none none none = false := by
    unfold not_available_check
    dsimp only
    rw [hfind, hav]
    rfl
  unfold do_assign
  rw [h1, h2, h3, h4, h5]
  simp

/-- C3: assignment requires an existing, available item.  For a requested
shako (the item kind of Scenario A; the three other kinds use
syntactically identical checks): a missing item is rejected (`NotFound` /
the "Missing Parts" outcome) with no state change; an item that exists
with any status other than `'Available'` is rejected (`NotAvailable`)
with no state change; an available item is assigned successfully, and a
subsequent request for the same item by another member is rejected
`NotAvailable`. -/
theorem C3_assign_requires_available (db : DB) (sid sid2 : String) (n : Nat)
    (hv : validSid sid = true)
    (hex : (get_student_by_id db sid).isSome = true)
    (hcur : get_uniforms_by_student_id db sid = none) :
    (find_shako_by_number db n = none →
      do_assign db sid (some n) none none none none none = (.missingParts, db)) ∧
    (∀ r : Shako, find_shako_by_number db n = some r → r.status ≠ some "Available" →
      do_assign db sid (some n) none none none none none = (.notAvailable, db)) ∧
    (is_shako_available db n = true →
      (do_assign db sid (some n) none none none none none).1 = .success ∧
      (validSid sid2 = true →
        (get_student_by_id (do_assign db sid (some n) none none none none none).2
          sid2).isSome = true →
        get_uniforms_by_student_id (do_assign db sid (some n) none none none none none).2
          sid2 = none →
        (do_assign (do_assign db sid (some n) none none none none none).2 sid2
          (some n) none none none none none).1 = .notAvailable)) := by
  refine ⟨fun hfind => do_assign_shako_missing db sid n hv hex hcur hfind,
          fun r hfind hna => do_assign_shako_notavail db sid n r hv hex hcur hfind hna,
          fun hav => ?_⟩
  have hsucc := do_assign_shako_success db sid n hv hex hcur hav
  have hfs : (find_shako_by_number db n).isSome = true := by
    unfold is_shako_available at hav
    cases hf : find_shako_by_number db n
    · rw [hf] at hav
      simp at hav
    · rfl
  obtain ⟨r, hfind⟩ := Option.isSome_iff_exists.mp hfs
  constructor
  · rw [hsucc]
  · intro hv2 hex2 hcur2
    rw [hsucc] at hex2 hcur2 ⊢
    have hafter := find_shako_after_apply db sid n none none none
      (hanger_from_coat db none) none none r hfind
    have hrej := do_assign_shako_notavail
      (do_assign_apply db sid (some n) none none none (hanger_from_coat db none) none none)
      sid2 n _ hv2 hex2 hcur2 hafter (by simp)
    rw [hrej]

/-- C3 witness (Scenario A): member 111111111 is assigned available
shako #12; member 222222222's subsequent request for shako #12 is
rejected NotAvailable. -/
theorem C3_assign_requires_available_witness :
    (do_assign dbC3 "111111111" (some 12) none none none none none).1 = .success ∧
    (do_assign (do_assign dbC3 "111111111" (some 12) none none none none none).2
      "222222222" (some 12) none none none none none).1 = .notAvailable := by
  have h := C3_assign_requires_available dbC3 "111111111" "222222222" 12
    (by decide) (by decide) (by decide)
  have h3 := h.2.2 (by decide)
  exact ⟨h3.1, h3.2 (by decide) (by decide) (by decide)⟩

theorem digitChar_isDigit (d : Nat) (h : d < 10) : (digitChar d).isDigit = true := by
  interval_cases d <;> decide

theorem digitChar_not_ws (d : Nat) (h : d < 10) :
    (digitChar d).isWhitespace = false := by
  interval_cases d <;> decide

theorem digitVal_digitChar (d : Nat) (h : d < 10) : digitVal (digitChar d) = d := by
  interval_cases d <;> decide

theorem digitsToNat_append (l : List Char) (c : Char) :
    digitsToNat (l ++ [c]) = 10 * digitsToNat l + digitVal c := by
  unfold digitsToNat
  rw [List.foldl_append]
  simp [List.foldl, Nat.mul_comm]

theorem toDecDigitsF_spec : ∀ (fuel n : Nat), n < fuel →
    toDecDigitsF fuel n ≠ [] ∧
    (∀ c ∈ toDecDigitsF fuel n, c.isDigit = true ∧ c.isWhitespace = false) ∧
    digitsToNat (toDecDigitsF fuel n) = n := by
  intro fuel
  induction fuel with
  | zero =>
    intro n h
    omega
  | succ f ih =>
    intro n h
    simp only [toDecDigitsF]
    split_ifs with h10
    · refine ⟨by simp, ?_, ?_⟩
      · intro c hc
        simp only [List.mem_singleton] at hc
        subst hc
        exact ⟨digitChar_isDigit n h10, digitChar_not_ws n h10⟩
      · simp [digitsToNat, List.foldl, digitVal_digitChar n h10]
    · have hlt : n / 10 < n := Nat.div_lt_self (by omega) (by decide)
      have hdiv : n / 10 < f := by omega
      obtain ⟨hne, hall, hval⟩ := ih (n / 10) hdiv
      refine ⟨by simp, ?_, ?_⟩
      · intro c hc
        rw [List.mem_append] at hc
        rcases hc with hc | hc
        · exact hall c hc
        · simp only [List.mem_singleton] at hc
          subst hc
          exact ⟨digitChar_isDigit _ (Nat.mod_lt _ (by decide)),
                 digitChar_not_ws _ (Nat.mod_lt _ (by decide))⟩
      · rw [digitsToNat_append, hval,
          digitVal_digitChar _ (Nat.mod_lt _ (by decide))]
        omega

theorem toDecDigits_props (n : Nat) :
    toDecDigits n ≠ [] ∧ ∀ c ∈ toDecDigits n, c.isDigit = true ∧ c.isWhitespace = false := by
  obtain ⟨h1, h2, _⟩ := toDecDigitsF_spec (n + 1) n (by omega)
  exact ⟨h1, h2⟩

theorem digitsToNat_toDecDigits (n : Nat) : digitsToNat (toDecDigits n) = n :=
  (toDecDigitsF_spec (n + 1) n (by omega)).2.2

theorem strToNat_natToStr (n : Nat) : strToNat? (natToStr n) = some n := by
  obtain ⟨hne, hall⟩ := toDecDigits_props n
  unfold strToNat? natToStr
  rw [if_pos ⟨hne, by rw [List.all_eq_true]; intro c hc; exact (hall c hc).1⟩]
  rw [digitsToNat_toDecDigits]

theorem dropWhile_ws_eq_self (l : List Char)
    (h : ∀ c ∈ l, Char.isWhitespace c = false) :
    l.dropWhile Char.isWhitespace = l := by
  cases l with
  | nil => rfl
  | cons a t =>
    rw [List.dropWhile_cons]
    simp [h a (by simp)]

theorem pyStrip_of_nonws (l : List Char)
    (h : ∀ c ∈ l, Char.isWhitespace c = false) :
    pyStrip ⟨l⟩ = ⟨l⟩ := by
  unfold pyStrip
  rw [show (String.mk l).data = l from rfl, dropWhile_ws_eq_self l h,
    dropWhile_ws_eq_self l.reverse (by
      intro c hc
      exact h c (List.mem_reverse.mp hc)), List.reverse_reverse]

theorem pyStrip_natToStr (n : Nat) : pyStrip (natToStr n) = natToStr n := by
  have hall := (toDecDigits_props n).2
  exact pyStrip_of_nonws (toDecDigits n) (fun c hc => (hall c hc).2)

theorem natToStr_ne_empty (n : Nat) : natToStr n ≠ "" := by
  intro he
  apply (toDecDigits_props n).1
  have : (natToStr n).data = ("" : String).data := by rw [he]
  simpa [natToStr] using this

theorem parseField_natToStr (n : Nat) : parseField (natToStr n) = some (natToStr n) := by
  unfold parseField
  rw [pyStrip_natToStr]
  simp [natToStr_ne_empty n]

theorem parseField_cleanStr (s : String) (h1 : pyStrip s = s) (h2 : s ≠ "") :
    parseField s = some s := by
  unfold parseField
  rw [h1]
  simp [h2]

theorem parseField_fieldStr (f : Option String) (hc : cleanField f) :
    parseField (fieldStr f) = f := by
  cases f with
  | none => rfl
  | some s =>
    obtain ⟨h1, h2⟩ := hc
    exact parseField_cleanStr s h1 h2

theorem parseNatField_fieldNat (o : Option Nat) :
    parseNatField (parseField (fieldNat o)) = some o := by
  cases o with
  | none => rfl
  | some n =>
    rw [show fieldNat (some n) = natToStr n from rfl, parseField_natToStr]
    unfold parseNatField
    dsimp only
    rw [strToNat_natToStr]
    rfl

theorem parsePK_roundtrip (nid n : Nat) :
    parsePK nid (parseField (natToStr n)) = some n := by
  rw [parseField_natToStr]
  unfold parsePK
  dsimp only
  rw [strToNat_natToStr]

theorem restoreRow_shakoRow (acc : DB) (r : Shako) (hc : cleanShako r)
    (hdup : ∀ a ∈ acc.shakos, a.id ≠ r.id ∧
      (r.shako_num.isSome = true → a.shako_num ≠ r.shako_num)) :
    restoreRow acc (shakoRow r) = { acc with shakos := acc.shakos ++ [r] } := by
  obtain ⟨hst, hsid, hnts, hok⟩ := hc
  simp only [shakoRow]
  rw [restoreRow_SHAKOS]
  simp only [List.map]
  unfold restoreShako
  dsimp only
  rw [parsePK_roundtrip, parseNatField_fieldNat]
  dsimp only
  rw [parseField_fieldStr _ hst, parseField_fieldStr _ hsid, parseField_fieldStr _ hnts]
  have hany : (acc.shakos.any (fun a =>
      a.id = r.id || (r.shako_num.isSome && a.shako_num = r.shako_num))) = false := by
    refine List.any_eq_false.mpr ?_
    intro a ha
    have h1 := (hdup a ha).1
    have h2 := (hdup a ha).2
    simp only [Bool.or_eq_true, decide_eq_true_eq, Bool.and_eq_true, not_or]
    exact ⟨h1, fun hand => h2 hand.1 hand.2⟩
  simp [hok, hany]

theorem restoreRow_coatRow (acc : DB) (r : Coat) (hc : cleanCoat r)
    (hdup : ∀ a ∈ acc.coats, a.id ≠ r.id ∧
      (r.coat_num.isSome = true → a.coat_num ≠ r.coat_num)) :
    restoreRow acc (coatRow r) = { acc with coats := acc.coats ++ [r] } := by
  obtain ⟨hst, hsid, hnts, hok⟩ := hc
  simp only [coatRow]
  rw [restoreRow_COATS]
  simp only [List.map]
  unfold restoreCoat
  dsimp only
  rw [parsePK_roundtrip, parseNatField_fieldNat, parseNatField_fieldNat]
  dsimp only
  rw [parseField_fieldStr _ hst, parseField_fieldStr _ hsid, parseField_fieldStr _ hnts]
  have hany : (acc.coats.any (fun a =>
      a.id = r.id || (r.coat_num.isSome && a.coat_num = r.coat_num))) = false := by
    refine List.any_eq_false.mpr ?_
    intro a ha
    have h1 := (hdup a ha).1
    have h2 := (hdup a ha).2
    simp only [Bool.or_eq_true, decide_eq_true_eq, Bool.and_eq_true, not_or]
    exact ⟨h1, fun hand => h2 hand.1 hand.2⟩
  simp [hok, hany]

theorem restoreRow_pantsRow (acc : DB) (r : Pants) (hc : cleanPants r)
    (hdup : ∀ a ∈ acc.pants, a.id ≠ r.id ∧
      (r.pants_num.isSome = true → a.pants_num ≠ r.pants_num)) :
    restoreRow acc (pantsRow r) = { acc with pants := acc.pants ++ [r] } := by
  obtain ⟨hst, hsid, hnts, hok⟩ := hc
  simp only [pantsRow]
  rw [restoreRow_PANTS]
  simp only [List.map]
  unfold restorePants
  dsimp only
  rw [parsePK_roundtrip, parseNatField_fieldNat]
  dsimp only
  rw [parseField_fieldStr _ hst, parseField_fieldStr _ hsid, parseField_fieldStr _ hnts]
  have hany : (acc.pants.any (fun a =>
      a.id = r.id || (r.pants_num.isSome && a.pants_num = r.pants_num))) = false := by
    refine List.any_eq_false.mpr ?_
    intro a ha
    have h1 := (hdup a ha).1
    have h2 := (hdup a ha).2
    simp only [Bool.or_eq_true, decide_eq_true_eq, Bool.and_eq_true, not_or]
    exact ⟨h1, fun hand => h2 hand.1 hand.2⟩
  simp [hok, hany]

theorem restoreRow_bagRow (acc : DB) (r : GarmentBag) (hc : cleanBag r)
    (hdup : ∀ a ∈ acc.garment_bags, a.id ≠ r.id ∧
      (r.bag_num.isSome = true → a.bag_num ≠ r.bag_num)) :
    restoreRow acc (bagRow r) = { acc with garment_bags := acc.garment_bags ++ [r] } := by
  obtain ⟨hbn, hst, hsid, hnts, hok⟩ := hc
  simp only [bagRow]
  rw [restoreRow_BAGS]
  simp only [List.map]
  unfold restoreBag
  dsimp only
  rw [parsePK_roundtrip]
  dsimp only
  rw [parseField_fieldStr _ hbn, parseField_fieldStr _ hst,
    parseField_fieldStr _ hsid, parseField_fieldStr _ hnts]
  have hany : (acc.garment_bags.any (fun a =>
      a.id = r.id || (r.bag_num.isSome && a.bag_num = r.bag_num))) = false := by
    refine List.any_eq_false.mpr ?_
    intro a ha
    have h1 := (hdup a ha).1
    have h2 := (hdup a ha).2
    simp only [Bool.or_eq_true, decide_eq_true_eq, Bool.and_eq_true, not_or]
    exact ⟨h1, fun hand => h2 hand.1 hand.2⟩
  simp [hok, hany]

theorem restoreRow_uniformRow (acc : DB) (u : UniformRec) (hc : cleanUniform u)
    (hdup : ∀ a ∈ acc.uniforms, a.id ≠ u.id) :
    restoreRow acc (uniformRow u) = { acc with uniforms := acc.uniforms ++ [u] } := by
  obtain ⟨hsid, hbag, hst, hnts, hok⟩ := hc
  simp only [uniformRow]
  rw [restoreRow_UNIFORMS]
  simp only [List.map]
  unfold restoreUniform
  dsimp only
  rw [parsePK_roundtrip, parseNatField_fieldNat, parseNatField_fieldNat,
    parseNatField_fieldNat, parseNatField_fieldNat]
  dsimp only
  rw [parseField_fieldStr _ hsid, parseField_fieldStr _ hbag,
    parseField_fieldStr _ hst, parseField_fieldStr _ hnts]
  have hany : (acc.uniforms.any (fun a => a.id = u.id)) = false := by
    refine List.any_eq_false.mpr ?_
    intro a ha
    simpa using hdup a ha
  simp [hok, hany]

theorem restoreRow_instrumentRow (acc : DB) (r : Instrument) (hc : cleanInstrument r)
    (hdup : ∀ a ∈ acc.instruments, a.id ≠ r.id) :
    restoreRow acc (instrumentRow r) =
      { acc with instruments := acc.instruments ++ [r] } := by
  obtain ⟨hsid, hnm, hsr, hcs, hmd, hcd, hst, hnts, hok, hcond⟩ := hc
  simp only [instrumentRow]
  rw [restoreRow_INSTRUMENTS]
  simp only [List.map]
  unfold restoreInstrument
  dsimp only
  rw [parsePK_roundtrip]
  dsimp only
  rw [parseField_fieldStr _ hsid, parseField_fieldStr _ hnm, parseField_fieldStr _ hsr,
    parseField_fieldStr _ hcs, parseField_fieldStr _ hmd, parseField_fieldStr _ hcd,
    parseField_fieldStr _ hst, parseField_fieldStr _ hnts]
  have hany : (acc.instruments.any (fun a => a.id = r.id)) = false := by
    refine List.any_eq_false.mpr ?_
    intro a ha
    simpa using hdup a ha
  simp [hok, hcond, hany]

theorem restoreRow_studentRow (acc : DB) (s : Student) (hc : cleanStudent s)
    (hdup : ∀ a ∈ acc.students, a.student_id ≠ s.student_id) :
    restoreRow acc (studentRow s) = { acc with students := acc.students ++ [s] } := by
  obtain ⟨hk1, hk2, hf1, hf2, hf3, hf4, hf5, hf6, hf7, hf8, hf9, hf10, hf11,
    hok, hsec⟩ := hc
  simp only [studentRow]
  rw [restoreRow_STUDENTS]
  simp only [List.map]
  unfold restoreStudent
  dsimp only
  rw [parseField_cleanStr _ hk1 hk2]
  dsimp only
  rw [parseField_fieldStr _ hf1, parseField_fieldStr _ hf2, parseField_fieldStr _ hf3,
    parseField_fieldStr _ hf4, parseField_fieldStr _ hf5, parseField_fieldStr _ hf6,
    parseField_fieldStr _ hf7, parseField_fieldStr _ hf8, parseField_fieldStr _ hf9,
    parseField_fieldStr _ hf10, parseField_fieldStr _ hf11]
  have hany : (acc.students.any (fun a => a.student_id = s.student_id)) = false := by
    refine List.any_eq_false.mpr ?_
    intro a ha
    simpa using hdup a ha
  simp [hok, hsec, hany]

theorem restore_students_phase (ss : List Student) : ∀ (acc : DB),
    (∀ s ∈ ss, cleanStudent s) →
    ((acc.students ++ ss).Pairwise (fun a b => a.student_id ≠ b.student_id)) →
    List.foldl restoreRow acc (ss.map studentRow) =
      { acc with students := acc.students ++ ss } := by
  induction ss with
  | nil =>
    intro acc hclean hpw
    simp
  | cons s ss ih =>
    intro acc hclean hpw
    have hdup : ∀ a ∈ acc.students, a.student_id ≠ s.student_id := by
      intro a ha
      exact (List.pairwise_append.mp hpw).2.2 a ha s (by simp)
    rw [List.map_cons, List.foldl_cons,
      restoreRow_studentRow acc s (hclean s (by simp)) hdup,
      ih { acc with students := acc.students ++ [s] }
        (fun x hx => hclean x (by simp [hx]))
        (by
          show ((acc.students ++ [s]) ++ ss).Pairwise _
          rw [List.append_assoc]
          exact hpw)]
    simp [List.append_assoc]

theorem restore_shakos_phase (ss : List Shako) : ∀ (acc : DB),
    (∀ r ∈ ss, cleanShako r) →
    ((acc.shakos ++ ss).Pairwise (fun a b =>
      a.id ≠ b.id ∧ (b.shako_num.isSome = true → a.shako_num ≠ b.shako_num))) →
    List.foldl restoreRow acc (ss.map shakoRow) =
      { acc with shakos := acc.shakos ++ ss } := by
  induction ss with
  | nil =>
    intro acc hclean hpw
    simp
  | cons s ss ih =>
    intro acc hclean hpw
    have hdup : ∀ a ∈ acc.shakos, a.id ≠ s.id ∧
        (s.shako_num.isSome = true → a.shako_num ≠ s.shako_num) := by
      intro a ha
      exact (List.pairwise_append.mp hpw).2.2 a ha s (by simp)
    rw [List.map_cons, List.foldl_cons,
      restoreRow_shakoRow acc s (hclean s (by simp)) hdup,
      ih { acc with shakos := acc.shakos ++ [s] }
        (fun x hx => hclean x (by simp [hx]))
        (by
          show ((acc.shakos ++ [s]) ++ ss).Pairwise _
          rw [List.append_assoc]
          exact hpw)]
    simp [List.append_assoc]

theorem restore_coats_phase (ss : List Coat) : ∀ (acc : DB),
    (∀ r ∈ ss, cleanCoat r) →
    ((acc.coats ++ ss).Pairwise (fun a b =>
      a.id ≠ b.id ∧ (b.coat_num.isSome = true → a.coat_num ≠ b.coat_num))) →
    List.foldl restoreRow acc (ss.map coatRow) =
      { acc with coats := acc.coats ++ ss } := by
  induction ss with
  | nil =>
    intro acc hclean hpw
    simp
  | cons s ss ih =>
    intro acc hclean hpw
    have hdup : ∀ a ∈ acc.coats, a.id ≠ s.id ∧
        (s.coat_num.isSome = true → a.coat_num ≠ s.coat_num) := by
      intro a ha
      exact (List.pairwise_append.mp hpw).2.2 a ha s (by simp)
    rw [List.map_cons, List.foldl_cons,
      restoreRow_coatRow acc s (hclean s (by simp)) hdup,
      ih { acc with coats := acc.coats ++ [s] }
        (fun x hx => hclean x (by simp [hx]))
        (by
          show ((acc.coats ++ [s]) ++ ss).Pairwise _
          rw [List.append_assoc]
          exact hpw)]
    simp [List.append_assoc]

theorem restore_pants_phase (ss : List Pants) : ∀ (acc : DB),
    (∀ r ∈ ss, cleanPants r) →
    ((acc.pants ++ ss).Pairwise (fun a b =>
      a.id ≠ b.id ∧ (b.pants_num.isSome = true → a.pants_num ≠ b.pants_num))) →
    List.foldl restoreRow acc (ss.map pantsRow) =
      { acc with pants := acc.pants ++ ss } := by
  induction ss with
  | nil =>
    intro acc hclean hpw
    simp
  | cons s ss ih =>
    intro acc hclean hpw
    have hdup : ∀ a ∈ acc.pants, a.id ≠ s.id ∧
        (s.pants_num.isSome = true → a.pants_num ≠ s.pants_num) := by
      intro a ha
      exact (List.pairwise_append.mp hpw).2.2 a ha s (by simp)
    rw [List.map_cons, List.foldl_cons,
      restoreRow_pantsRow acc s (hclean s (by simp)) hdup,
      ih { acc with pants := acc.pants ++ [s] }
        (fun x hx => hclean x (by simp [hx]))
        (by
          show ((acc.pants ++ [s]) ++ ss).Pairwise _
          rw [List.append_assoc]
          exact hpw)]
    simp [List.append_assoc]

theorem restore_bags_phase (ss : List GarmentBag) : ∀ (acc : DB),
    (∀ r ∈ ss, cleanBag r) →
    ((acc.garment_bags ++ ss).Pairwise (fun a b =>
      a.id ≠ b.id ∧ (b.bag_num.isSome = true → a.bag_num ≠ b.bag_num))) →
    List.foldl restoreRow acc (ss.map bagRow) =
      { acc with garment_bags := acc.garment_bags ++ ss } := by
  induction ss with
  | nil =>
    intro acc hclean hpw
    simp
  | cons s ss ih =>
    intro acc hclean hpw
    have hdup : ∀ a ∈ acc.garment_bags, a.id ≠ s.id ∧
        (s.bag_num.isSome = true → a.bag_num ≠ s.bag_num) := by
      intro a ha
      exact (List.pairwise_append.mp hpw).2.2 a ha s (by simp)
    rw [List.map_cons, List.foldl_cons,
      restoreRow_bagRow acc s (hclean s (by simp)) hdup,
      ih { acc with garment_bags := acc.garment_bags ++ [s] }
        (fun x hx => hclean x (by simp [hx]))
        (by
          show ((acc.garment_bags ++ [s]) ++ ss).Pairwise _
          rw [List.append_assoc]
          exact hpw)]
    simp [List.append_assoc]

theorem restore_uniforms_phase (ss : List UniformRec) : ∀ (acc : DB),
    (∀ u ∈ ss, cleanUniform u) →
    ((acc.uniforms ++ ss).Pairwise (fun a b => a.id ≠ b.id)) →
    List.foldl restoreRow acc (ss.map uniformRow) =
      { acc with uniforms := acc.uniforms ++ ss } := by
  induction ss with
  | nil =>
    intro acc hclean hpw
    simp
  | cons s ss ih =>
    intro acc hclean hpw
    have hdup : ∀ a ∈ acc.uniforms, a.id ≠ s.id := by
      intro a ha
      exact (List.pairwise_append.mp hpw).2.2 a ha s (by simp)
    rw [List.map_cons, List.foldl_cons,
      restoreRow_uniformRow acc s (hclean s (by simp)) hdup,
      ih { acc with uniforms := acc.uniforms ++ [s] }
        (fun x hx => hclean x (by simp [hx]))
        (by
          show ((acc.uniforms ++ [s]) ++ ss).Pairwise _
          rw [List.append_assoc]
          exact hpw)]
    simp [List.append_assoc]

theorem restore_instruments_phase (ss : List Instrument) : ∀ (acc : DB),
    (∀ r ∈ ss, cleanInstrument r) →
    ((acc.instruments ++ ss).Pairwise (fun a b => a.id ≠ b.id)) →
    List.foldl restoreRow acc (ss.map instrumentRow) =
      { acc with instruments := acc.instruments ++ ss } := by
  induction ss with
  | nil =>
    intro acc hclean hpw
    simp
  | cons s ss ih =>
    intro acc hclean hpw
    have hdup : ∀ a ∈ acc.instruments, a.id ≠ s.id := by
      intro a ha
      exact (List.pairwise_append.mp hpw).2.2 a ha s (by simp)
    rw [List.map_cons, List.foldl_cons,
      restoreRow_instrumentRow acc s (hclean s (by simp)) hdup,
      ih { acc with instruments := acc.instruments ++ [s] }
        (fun x hx => hclean x (by simp [hx]))
        (by
          show ((acc.instruments ++ [s]) ++ ss).Pairwise _
          rw [List.append_assoc]
          exact hpw)]
    simp [List.append_assoc]

/-- C6 (counterexample): a comma-free store is NOT always reproduced by
`Import(Export())` — the importer strips every field, so a notes value
with a leading space (no comma anywhere) comes back changed. -/
theorem C6_counterexample :
    use_backup (create_backup dbC6) ≠ dbC6 ∧
    (use_backup (create_backup dbC6)).shakos =
      [⟨1, some 12, some "Available", none, some "x"⟩] ∧
    dbC6.shakos = [⟨1, some 12, some "Available", none, some " x"⟩] := by
  decide

/-- C6 (amended): for every store whose text fields are stripped and
non-empty (or NULL), whose enum fields satisfy their CHECK constraints,
and whose keys honour the schema's PRIMARY KEY / UNIQUE constraints,
`Import(Export())` reproduces the store exactly — the same member,
component, composite-uniform and instrument records, with the same
statuses and assignee links, in the same order. -/
theorem C6_roundtrip (db : DB) (h : cleanDB db) :
    use_backup (create_backup db) = db := by
  obtain ⟨hstc, hstp, hshc, hshp, hcoc, hcop, hpac, hpap, hbac, hbap, hunc, hunp,
    hinc, hinp⟩ := h
  have e1 : List.foldl restoreRow emptyDB (db.students.map studentRow) =
      (⟨db.students, [], [], [], [], [], []⟩ : DB) := by
    rw [restore_students_phase db.students emptyDB hstc (by exact hstp)]
    rfl
  have e2 : List.foldl restoreRow (⟨db.students, [], [], [], [], [], []⟩ : DB)
      (db.uniforms.map uniformRow) =
      (⟨db.students, [], [], [], [], db.uniforms, []⟩ : DB) := by
    rw [restore_uniforms_phase db.uniforms _ hunc (by exact hunp)]
    rfl
  have e3 : List.foldl restoreRow (⟨db.students, [], [], [], [], db.uniforms, []⟩ : DB)
      (db.shakos.map shakoRow) =
      (⟨db.students, db.shakos, [], [], [], db.uniforms, []⟩ : DB) := by
    rw [restore_shakos_phase db.shakos _ hshc (by exact hshp)]
    rfl
  have e4 : List.foldl restoreRow
      (⟨db.students, db.shakos, [], [], [], db.uniforms, []⟩ : DB)
      (db.coats.map coatRow) =
      (⟨db.students, db.shakos, db.coats, [], [], db.uniforms, []⟩ : DB) := by
    rw [restore_coats_phase db.coats _ hcoc (by exact hcop)]
    rfl
  have e5 : List.foldl restoreRow
      (⟨db.students, db.shakos, db.coats, [], [], db.uniforms, []⟩ : DB)
      (db.pants.map pantsRow) =
      (⟨db.students, db.shakos, db.coats, db.pants, [], db.uniforms, []⟩ : DB) := by
    rw [restore_pants_phase db.pants _ hpac (by exact hpap)]
    rfl
  have e6 : List.foldl restoreRow
      (⟨db.students, db.shakos, db.coats, db.pants, [], db.uniforms, []⟩ : DB)
      (db.garment_bags.map bagRow) =
      (⟨db.students, db.shakos, db.coats, db.pants, db.garment_bags,
        db.uniforms, []⟩ : DB) := by
    rw [restore_bags_phase db.garment_bags _ hbac (by exact hbap)]
    rfl
  have e7 : List.foldl restoreRow
      (⟨db.students, db.shakos, db.coats, db.pants, db.garment_bags,
        db.uniforms, []⟩ : DB)
      (db.instruments.map instrumentRow) = db := by
    rw [restore_instruments_phase db.instruments _ hinc (by exact hinp)]
    rfl
  unfold use_backup create_backup
  simp only [List.foldl_append]
  rw [e1, e2, e3, e4, e5, e6, e7]

/-- C6 witness: the round trip applied at a populated clean store. -/
theorem C6_roundtrip_witness : use_backup (create_backup dbC6W) = dbC6W :=
  C6_roundtrip dbC6W (by decide)

/-- C7 witness: the theorem applied at a member holding an assigned
instrument (spec Scenario C): the instrument becomes Available with no
assignee. -/
theorem C7_delete_member_cascade_witness :
    (delete_student dbC4 "123456789" true).instruments[0]? =
      some ⟨1, none, some "Tuba", some "S1", some "C1", none, some "Good",
        some "Available", none⟩ :=
  (C7_delete_member_cascade dbC4 "123456789"
      (by decide)).2.2.2.2.2.2.2.2.2.2.2.2 0
    ⟨1, some "123456789", some "Tuba", some "S1", some "C1", none, some "Good",
      some "Assigned", none⟩ (by decide) (by decide)

end EquipMgmt

